import Mathlib

/-!
# Verification development for argo-rollouts: `utils/evaluate` and the rollout phase

Shallow embedding of `src/utils/evaluate/evaluate.go`, and a model of the rollout
phase that `rolloututil_test.go` tests.

The Go functions `EvaluateResult`, `EvalCondition`, `eval`, `unwrapFileErr`, `asInt`,
`asFloat` and `isInf` are translated line by line.  The expression library they
call (`github.com/antonmedv/expr`: `conf`, `parser`, `checker`, `compiler`,
`expr.Run`) is a dependency whose source is not part of the repository; it enters
the embedding as a parameter `L : ExprLib V`, so that every general statement
holds for every behaviour of the library.  Statements about particular
expressions are made on `exprModel`, a model of the library.  Go multiple return
values `(bool, error)` are pairs `Bool × Option GoError`.

`EvalCondition` and `EvaluateResult` additionally return the list of `eval`
invocations they perform (condition text and strict flag, in program order);
this call log is what statements such as "the lax pass is not attempted" are
about.

`GetRolloutPhase`, `ComputeStepHash` and `checkStepHashChange` are not among the
sources; the namespace `RolloutUtil` models them from the specification and from
the expectations of `rolloututil_test.go`.
-/

/-! ## Go's `strconv.ParseInt`

`asInt` of `evaluate.go` and the generation checks of the rollout phase call the
standard library's integer parser in base 10.  It is not part of the repository;
this is its documented behaviour: an optional sign, then one or more decimal
digits, and a value that fits the bit size.  The characters are read from left to
right and the first failure is the one reported.
-/

namespace Strconv

/-- The two ways a conversion fails: `ErrSyntax` and `ErrRange`. -/
inductive ConvError
  | invalid
  | range
  deriving DecidableEq, Repr

/-- The text of `ErrSyntax` and of `ErrRange`. -/
def ConvError.text : ConvError → String
  | .invalid => "invalid syntax"
  | .range => "value out of range"

/-- The loop of `ParseUint` in base 10, continuing from the value `acc`: the
characters are read from left to right; a character that is no decimal digit
ends the loop with `ErrSyntax`, and a digit with which the value exceeds `maxVal`
ends it with `ErrRange`, whatever follows. -/
def parseDigits (maxVal : Nat) (acc : Nat) : List Char → Except ConvError Nat
  | [] => .ok acc
  | c :: cs =>
    if c.isDigit then
      if acc * 10 + (c.toNat - 48) > maxVal then .error .range
      else parseDigits maxVal (acc * 10 + (c.toNat - 48)) cs
    else .error .invalid

/-- `ParseInt(s, 10, bitSize)`: the integer `s` denotes in base 10. -/
def ParseInt (s : String) (bitSize : Nat) : Except ConvError Int :=
  match s.data with
  | [] => .error .invalid
  | c :: cs =>
    let neg : Bool := c == Char.ofNat 45
    let digits := if c == Char.ofNat 43 || c == Char.ofNat 45 then cs else c :: cs
    match digits with
    | [] => .error .invalid
    | d :: ds =>
      match parseDigits (2 ^ bitSize - 1) 0 (d :: ds) with
      | .error e => .error e
      | .ok un =>
        let cutoff : Nat := 2 ^ (bitSize - 1)
        if !neg && un ≥ cutoff then .error .range
        else if neg && un > cutoff then .error .range
        else .ok (if neg then -(un : Int) else (un : Int))

/-- `Atoi(s)`: `ParseInt(s, 10, 0)` on a platform whose `int` has 64 bits. -/
def Atoi (s : String) : Except ConvError Int :=
  ParseInt s 64

/-- The text of the `*NumError` a failed conversion returns, for the function
`fn` and the input `s`; `quote` is `strconv.Quote`. -/
def numErrorText (quote : String → String) (fn : String) (s : String) (e : ConvError) : String :=
  "strconv." ++ fn ++ ": parsing " ++ quote s ++ ": " ++ e.text

end Strconv

namespace Evaluate

/-! ## Data model -/

/-- AnalysisPhase of `v1alpha1`: the phase constants of an analysis run or measurement. -/
inductive AnalysisPhase
  | Pending
  | Running
  | Successful
  | Failed
  | Error
  | Inconclusive
  deriving DecidableEq, Repr

/-- The two fields of `v1alpha1.Metric` that `EvaluateResult` reads. -/
structure Metric where
  SuccessCondition : String
  FailureCondition : String
  deriving DecidableEq, Repr

/-- A Go `error` value as seen by `evaluate.go`: either an ordinary error carrying
its message (`errors.New`, `fmt.Errorf`, a recovered panic), or a `*file.Error` of the
expression library, which has a `Message` and a multi-line rendering with the
source location. -/
inductive GoError
  | plain (msg : String)
  | fileError (Message : String) (rendered : String)
  deriving DecidableEq, Repr

/-- The method `Error()` of a Go error: the text of the error. -/
def GoError.Error : GoError → String
  | .plain msg => msg
  | .fileError _ rendered => rendered

/-- The helper functions that `EvalCondition` injects into the environment. -/
inductive Helper
  | asInt
  | asFloat
  | isNaN
  | isInf
  deriving DecidableEq, Repr

/-- A value of the environment map: a measurement value or a helper function. -/
inductive EnvEntry (V : Type)
  | value (v : V)
  | helper (h : Helper)

/-- The environment `map[string]interface{}` handed to the expression library. -/
abbrev Env (V : Type) := List (String × EnvEntry V)

/-- The configuration object `conf.Config` as far as `eval` sets it. -/
structure Config (V : Type) where
  Env : Env V
  Strict : Bool
  Optimize : Bool

/-- The interface of the expression library used by `eval`, together with the two
Go run-time facilities `eval` applies to the produced value (the type assertion
`output.(bool)` and the verb `%T`).  `check` returns the tree it was given with
the type annotations the checker writes into it. -/
structure ExprLib (V : Type) where
  Tree : Type
  Program : Type
  configCheck : Config V → Option GoError
  parse : String → Except GoError Tree
  check : Tree → Config V → Except GoError Tree
  compile : Tree → Config V → Except GoError Program
  run : Program → Env V → Except GoError V
  asBool : V → Option Bool
  typeName : V → String

/-- One invocation of `eval`: the condition text and the strict flag. -/
structure EvalCall where
  condition : String
  strict : Bool
  deriving DecidableEq, Repr

/-! ## The regular expression `mismatched types.*<nil>` -/

/-- Whether the characters `p` are the first characters of `s`. -/
def startsWithChars : List Char → List Char → Bool
  | [], _ => true
  | _ :: _, [] => false
  | p :: ps, c :: cs => p == c && startsWithChars ps cs

/-- What is left of `s` after its first characters `p`, if `s` starts with `p`. -/
def dropChars : List Char → List Char → Option (List Char)
  | [], s => some s
  | _ :: _, [] => none
  | p :: ps, c :: cs => if p == c then dropChars ps cs else none

/-- The pattern `.*<nil>` anchored at the start of `s`: characters other than the
line feed, then the text `<nil>`. -/
def matchDotStarNil : List Char → Bool
  | [] => false
  | c :: cs =>
    startsWithChars "<nil>".data (c :: cs) || (c != Char.ofNat 10 && matchDotStarNil cs)

/-- The pattern `mismatched types.*<nil>` anchored at the start of `s`. -/
def matchHere (s : List Char) : Bool :=
  match dropChars "mismatched types".data s with
  | some rest => matchDotStarNil rest
  | none => false

/-- The pattern `mismatched types.*<nil>` somewhere in `s`. -/
def matchAnywhere : List Char → Bool
  | [] => false
  | c :: cs => matchHere (c :: cs) || matchAnywhere cs

/-- The method `MatchString` of the compiled regexp `mismatchedTypesWithNil`. -/
def mismatchedTypesWithNil (s : String) : Bool :=
  matchAnywhere s.data

/-! ## The functions of `evaluate.go` -/

/-- The function `unwrapFileErr`: removes the multi-line formatting of a `*file.Error`. -/
def unwrapFileErr : GoError → GoError
  | .fileError Message _ => .plain Message
  | e => e

/-- The environment built at the start of `EvalCondition`. -/
def mkEnv {V : Type} (resultValue : V) : Env V :=
  [("result", .value resultValue),
   ("asInt", .helper .asInt),
   ("asFloat", .helper .asFloat),
   ("isNaN", .helper .isNaN),
   ("isInf", .helper .isInf)]

/-- The function `eval`: a wrapper on the library's check, parse, compile and run,
with an option to leave the checker out. -/
def eval {V : Type} (L : ExprLib V) (_resultValue : V) (condition : String)
    (env : Env V) (strict : Bool) : Bool × Option GoError :=
  let config : Config V := { Env := env, Strict := strict, Optimize := true }
  match L.configCheck config with
  | some err => (false, some (unwrapFileErr err))
  | none =>
    match L.parse condition with
    | .error err => (false, some (unwrapFileErr err))
    | .ok tree =>
      match (if strict then L.check tree config else .ok tree) with
      | .error err => (false, some (unwrapFileErr err))
      | .ok tree =>
        match L.compile tree config with
        | .error err => (false, some (unwrapFileErr err))
        | .ok program =>
          match L.run program env with
          | .error err => (false, some (unwrapFileErr err))
          | .ok output =>
            match L.asBool output with
            | none => (false, some (.plain ("expected bool, but got " ++ L.typeName output)))
            | some val => (val, none)

/-- The part of `eval` before the type assertion: the value the expression
produces, or the error of the step that failed, as `eval` returns it. -/
def evalOutput {V : Type} (L : ExprLib V) (condition : String) (env : Env V)
    (strict : Bool) : Except GoError V :=
  let config : Config V := { Env := env, Strict := strict, Optimize := true }
  match L.configCheck config with
  | some err => .error (unwrapFileErr err)
  | none =>
    match L.parse condition with
    | .error err => .error (unwrapFileErr err)
    | .ok tree =>
      match (if strict then L.check tree config else .ok tree) with
      | .error err => .error (unwrapFileErr err)
      | .ok tree =>
        match L.compile tree config with
        | .error err => .error (unwrapFileErr err)
        | .ok program =>
          match L.run program env with
          | .error err => .error (unwrapFileErr err)
          | .ok output => .ok output

/-- The function `EvalCondition`, with the log of the `eval` invocations it makes. -/
def EvalCondition {V : Type} (L : ExprLib V) (resultValue : V) (condition : String) :
    (Bool × Option GoError) × List EvalCall :=
  let env := mkEnv resultValue
  -- first try with strict mode, if it passes, then great
  match eval L resultValue condition env true with
  | (output, none) => ((output, none), [⟨condition, true⟩])
  | (_, some err) =>
    -- if the error is anything but mismatched type check against nil, return the error
    if !mismatchedTypesWithNil err.Error then
      ((false, some err), [⟨condition, true⟩])
    else
      -- otherwise re-run evaluation but disabling strict mode
      (eval L resultValue condition env false, [⟨condition, true⟩, ⟨condition, false⟩])

/-- The final `switch` and the two `if`s of `EvaluateResult`, on the values the
two conditions evaluated to. -/
def decidePhase (metric : Metric) (successCondition failCondition : Bool) : AnalysisPhase :=
  if metric.SuccessCondition = "" ∧ metric.FailureCondition = "" then
    -- Always return success unless there is an error
    .Successful
  else
    let (successCondition, failCondition) :=
      if metric.SuccessCondition ≠ "" ∧ metric.FailureCondition = "" then
        -- Without a failure condition, a measurement is a failure if its success condition is not true
        (successCondition, !successCondition)
      else if metric.SuccessCondition = "" ∧ metric.FailureCondition ≠ "" then
        -- Without a success condition, a measurement is successful if its failure condition is not true
        (!failCondition, failCondition)
      else
        (successCondition, failCondition)
    if failCondition then .Failed
    else if !failCondition && !successCondition then .Inconclusive
    else .Successful

/-- The function `EvaluateResult`, with the log of the `eval` invocations it makes.
Its third parameter, the logging context, is not used by the function. -/
def EvaluateResult {V : Type} (L : ExprLib V) (result : V) (metric : Metric) :
    (AnalysisPhase × Option GoError) × List EvalCall :=
  let s : (Bool × Option GoError) × List EvalCall :=
    if metric.SuccessCondition ≠ "" then EvalCondition L result metric.SuccessCondition
    else ((false, none), [])
  match s with
  | ((_, some err), log) => ((.Error, some err), log)
  | ((successCondition, none), log) =>
    let f : (Bool × Option GoError) × List EvalCall :=
      if metric.FailureCondition ≠ "" then EvalCondition L result metric.FailureCondition
      else ((false, none), [])
    match f with
    | ((_, some err), log2) => ((.Error, some err), log ++ log2)
    | ((failCondition, none), log2) =>
      ((decidePhase metric successCondition failCondition, none), log ++ log2)

/-! ## A model of the expression library

The expression library is not part of the repository.  The definitions of this
section model the fragment of it that the specification (§4.1, §8) and the
expectations of `evaluate_test.go` describe: literals, identifiers, member and
index access, calls of the injected helpers, `!`, the comparisons, `&&`, `||`
and the conditional `? :`.  Expressions outside the fragment (membership `in`,
arithmetic, collection predicates) are rejected by the model's parser and nothing
is stated about them.  Within the fragment the model idealises: integer literals
and the values of the unsigned types are unbounded integers, a result of another
Go type (a slice, a map, a struct) is opaque, and an integer literal passed to a
helper that takes a `float64` is not converted.  The helper functions are Go
functions stored in the environment; the model receives what they compute as a
parameter.
-/

/-- Modelled from the spec: the measurement values handed to the evaluator (§4.1:
"nil/absent, a number, a string"), extended by the values the helpers return and
by the helper functions themselves, which an expression can name.  A number has
one of the Go types that `asInt` and `asFloat` distinguish; a `float32` is held
as the `float64` of the same value.  A value of any other Go type (a slice, a
map, a struct) is `other`, with the name of its type and the text that `%v`
prints for it; its elements and members are opaque to the model. -/
inductive Value
  | nil
  | bool (b : Bool)
  | int (n : Int)
  | int64 (n : Int)
  | float64 (x : Float)
  | string (s : String)
  | func (h : Helper)
  | float32 (x : Float)
  | int32 (n : Int)
  | int16 (n : Int)
  | int8 (n : Int)
  | uint64 (n : Int)
  | uint32 (n : Int)
  | uint16 (n : Int)
  | uint8 (n : Int)
  | uint (n : Int)
  | other (typeName : String) (text : String)

/-- The Go type assertion `output.(bool)`. -/
def Value.asBool : Value → Option Bool
  | .bool b => some b
  | _ => none

/-- The text the verb `%T` prints for a value: the name of its dynamic type. -/
def Value.typeName : Value → String
  | .nil => "<nil>"
  | .bool _ => "bool"
  | .int _ => "int"
  | .int64 _ => "int64"
  | .float64 _ => "float64"
  | .string _ => "string"
  | .func .asInt => "func(interface {}) int64"
  | .func .asFloat => "func(interface {}) float64"
  | .func .isNaN => "func(float64) bool"
  | .func .isInf => "func(float64) bool"
  | .float32 _ => "float32"
  | .int32 _ => "int32"
  | .int16 _ => "int16"
  | .int8 _ => "int8"
  | .uint64 _ => "uint64"
  | .uint32 _ => "uint32"
  | .uint16 _ => "uint16"
  | .uint8 _ => "uint8"
  | .uint _ => "uint"
  | .other typeName _ => typeName

/-- Modelled from the spec: the static types of the strict pass.  `nilLiteral` is the
type of the literal `nil`, `nilValue` the type of an operand bound to a nil value;
both print as `<nil>`. -/
inductive Ty
  | nilLiteral
  | nilValue
  | bool
  | int
  | int64
  | float64
  | string
  | any
  | func (h : Helper)
  | float32
  | int32
  | int16
  | int8
  | uint64
  | uint32
  | uint16
  | uint8
  | uint
  deriving DecidableEq, Repr

/-- The printed name of a static type, as it appears in the checker's messages. -/
def Ty.name : Ty → String
  | .nilLiteral => "<nil>"
  | .nilValue => "<nil>"
  | .bool => "bool"
  | .int => "int"
  | .int64 => "int64"
  | .float64 => "float64"
  | .string => "string"
  | .any => "interface {}"
  | .func h => Value.typeName (.func h)
  | .float32 => "float32"
  | .int32 => "int32"
  | .int16 => "int16"
  | .int8 => "int8"
  | .uint64 => "uint64"
  | .uint32 => "uint32"
  | .uint16 => "uint16"
  | .uint8 => "uint8"
  | .uint => "uint"

/-- The static type of a value of the environment. -/
def Value.staticType : Value → Ty
  | .nil => .nilValue
  | .bool _ => .bool
  | .int _ => .int
  | .int64 _ => .int64
  | .float64 _ => .float64
  | .string _ => .string
  | .func h => .func h
  | .float32 _ => .float32
  | .int32 _ => .int32
  | .int16 _ => .int16
  | .int8 _ => .int8
  | .uint64 _ => .uint64
  | .uint32 _ => .uint32
  | .uint16 _ => .uint16
  | .uint8 _ => .uint8
  | .uint _ => .uint
  | .other _ _ => .any

/-- The unary operators of the fragment. -/
inductive UnOp
  | not
  deriving DecidableEq, Repr

/-- The binary operators of the fragment. -/
inductive BinOp
  | or
  | and
  | eq
  | ne
  | lt
  | gt
  | le
  | ge
  deriving DecidableEq, Repr

/-- The precedence of a binary operator. -/
def BinOp.precedence : BinOp → Nat
  | .or => 10
  | .and => 15
  | _ => 20

/-- The tokens of the fragment. -/
inductive Token
  | identifier (name : String)
  | number (n : Nat)
  | float (mantissa : Nat) (digits : Nat)
  | string (s : String)
  | operator (text : String)
  | bracket (text : String)
  deriving DecidableEq, Repr

/-- A text between double quotes. -/
def quoted (s : String) : String :=
  String.singleton (Char.ofNat 34) ++ s ++ String.singleton (Char.ofNat 34)

/-- The text of a token in the parser's messages. -/
def Token.text : Token → String
  | .identifier name => "Identifier(" ++ quoted name ++ ")"
  | .number n => "Number(" ++ quoted (toString n) ++ ")"
  | .float m d => "Number(" ++ quoted (toString m ++ "e-" ++ toString d) ++ ")"
  | .string s => "String(" ++ quoted s ++ ")"
  | .operator t => "Operator(" ++ quoted t ++ ")"
  | .bracket t => "Bracket(" ++ quoted t ++ ")"

/-- The syntax trees of the fragment.  An operator node keeps the operator as it
was written (`||` or `or`), which is what messages print.  The arguments of a
call are a list built from `argsNil` and `argsCons`. -/
inductive Node
  | nilLit
  | boolLit (b : Bool)
  | intLit (n : Int)
  | floatLit (mantissa : Nat) (digits : Nat)
  | strLit (s : String)
  | ident (name : String)
  | unary (op : UnOp) (text : String) (n : Node)
  | binary (op : BinOp) (text : String) (l r : Node)
  | member (n : Node) (property : String)
  | index (n : Node) (i : Node)
  | method (n : Node) (name : String) (args : Node)
  | call (name : String) (args : Node)
  | argsNil
  | argsCons (hd tl : Node)
  | cond (c a b : Node)
  deriving Repr

/-- An error of the library: a `*file.Error` with the given message; its rendering
adds the source on a second line. -/
def libError (message : String) (source : String) : GoError :=
  .fileError message (message ++ String.singleton (Char.ofNat 10) ++ " | " ++ source)

/-! ### Lexer -/

/-- Letters and the underscore start an identifier. -/
def isIdentStart (c : Char) : Bool :=
  c.isAlpha || c == Char.ofNat 95

/-- Letters, digits and the underscore continue an identifier. -/
def isIdentChar (c : Char) : Bool :=
  c.isAlphanum || c == Char.ofNat 95

/-- The longest run of characters satisfying `p` at the start of `s`, and the rest. -/
def spanChars (p : Char → Bool) : List Char → List Char × List Char
  | [] => ([], [])
  | c :: cs =>
    if p c then
      let r := spanChars p cs
      (c :: r.1, r.2)
    else ([], c :: cs)

/-- The value of a run of decimal digits, continuing from `acc`. -/
def digitsValue (acc : Nat) : List Char → Nat
  | [] => acc
  | c :: cs => digitsValue (acc * 10 + (c.toNat - 48)) cs

/-- The characters of a string literal up to the closing quote, and the rest after it. -/
def spanQuoted (quote : Char) : List Char → Option (List Char × List Char)
  | [] => none
  | c :: cs =>
    if c == quote then some ([], cs)
    else if c == Char.ofNat 92 then none
    else
      match spanQuoted quote cs with
      | some r => some (c :: r.1, r.2)
      | none => none

/-- The word operators and the identifiers. -/
def wordToken (w : String) : Token :=
  if w = "and" ∨ w = "or" ∨ w = "not" ∨ w = "in" ∨ w = "matches" ∨ w = "contains"
      ∨ w = "startsWith" ∨ w = "endsWith" then .operator w
  else .identifier w

/-- The lexer: `fuel` bounds the number of tokens; `acc` holds the tokens read so
far, last first. -/
def lexAux : Nat → List Char → List Token → Except String (List Token)
  | 0, _, _ => .error "expression too long"
  | _ + 1, [], acc => .ok acc.reverse
  | fuel + 1, c :: cs, acc =>
    if c.isWhitespace then lexAux fuel cs acc
    else if isIdentStart c then
      let r := spanChars isIdentChar (c :: cs)
      lexAux fuel r.2 (wordToken (String.mk r.1) :: acc)
    else if c.isDigit then
      let r := spanChars Char.isDigit (c :: cs)
      match r.2 with
      | d :: e :: rest =>
        if d == Char.ofNat 46 && e.isDigit then
          let f := spanChars Char.isDigit (e :: rest)
          lexAux fuel f.2 (.float (digitsValue (digitsValue 0 r.1) f.1) f.1.length :: acc)
        else lexAux fuel r.2 (.number (digitsValue 0 r.1) :: acc)
      | _ => lexAux fuel r.2 (.number (digitsValue 0 r.1) :: acc)
    else if c == Char.ofNat 39 || c == Char.ofNat 34 then
      match spanQuoted c cs with
      | some r => lexAux fuel r.2 (.string (String.mk r.1) :: acc)
      | none => .error "literal not terminated"
    else if c == Char.ofNat 40 || c == Char.ofNat 41 || c == Char.ofNat 91 || c == Char.ofNat 93 then
      lexAux fuel cs (.bracket (String.singleton c) :: acc)
    else
      match cs with
      | d :: rest =>
        let two := String.mk [c, d]
        if two = "==" ∨ two = "!=" ∨ two = "<=" ∨ two = ">=" ∨ two = "&&" ∨ two = "||" then
          lexAux fuel rest (.operator two :: acc)
        else if c == Char.ofNat 60 || c == Char.ofNat 62 || c == Char.ofNat 33 || c == Char.ofNat 63
            || c == Char.ofNat 58 || c == Char.ofNat 46 || c == Char.ofNat 44 then
          lexAux fuel cs (.operator (String.singleton c) :: acc)
        else .error ("unrecognized character: " ++ String.singleton c)
      | [] =>
        if c == Char.ofNat 60 || c == Char.ofNat 62 || c == Char.ofNat 33 || c == Char.ofNat 63
            || c == Char.ofNat 58 || c == Char.ofNat 46 || c == Char.ofNat 44 then
          lexAux fuel cs (.operator (String.singleton c) :: acc)
        else .error ("unrecognized character: " ++ String.singleton c)

/-- The tokens of an expression. -/
def lex (source : String) : Except String (List Token) :=
  lexAux (source.data.length + 1) source.data []

/-! ### Parser -/

/-- The binary operator a token stands for. -/
def binaryOperator : Token → Option BinOp
  | .operator t =>
    if t = "||" ∨ t = "or" then some .or
    else if t = "&&" ∨ t = "and" then some .and
    else if t = "==" then some .eq
    else if t = "!=" then some .ne
    else if t = "<" then some .lt
    else if t = ">" then some .gt
    else if t = "<=" then some .le
    else if t = ">=" then some .ge
    else none
  | _ => none

/-- The message for a token the parser cannot use; `none` is the end of the input. -/
def unexpectedToken : Option Token → String
  | some t => "unexpected token " ++ t.text
  | none => "unexpected token EOF"

mutual

/-- An expression whose binary operators have at least the given precedence; at
precedence 0 it may continue as a conditional. -/
def parseExpression : Nat → Nat → List Token → Except String (Node × List Token)
  | 0, _, _ => .error "expression too deep"
  | fuel + 1, precedence, ts =>
    match parsePrimary fuel ts with
    | .error e => .error e
    | .ok (left, rest) =>
      match parseBinary fuel precedence left rest with
      | .error e => .error e
      | .ok (left, rest) =>
        if precedence = 0 then parseConditional fuel left rest else .ok (left, rest)

/-- The loop over the binary operators that follow the operand `left`. -/
def parseBinary : Nat → Nat → Node → List Token → Except String (Node × List Token)
  | 0, _, _, _ => .error "expression too deep"
  | fuel + 1, precedence, left, ts =>
    match ts with
    | .operator text :: rest =>
      match binaryOperator (.operator text) with
      | some op =>
        if op.precedence ≥ precedence then
          match parseExpression fuel (op.precedence + 1) rest with
          | .error e => .error e
          | .ok (right, rest) => parseBinary fuel precedence (.binary op text left right) rest
        else .ok (left, ts)
      | none => .ok (left, ts)
    | _ => .ok (left, ts)

/-- The conditional `? :` after the condition `node`. -/
def parseConditional : Nat → Node → List Token → Except String (Node × List Token)
  | 0, _, _ => .error "expression too deep"
  | fuel + 1, node, ts =>
    match ts with
    | .operator "?" :: .operator ":" :: rest =>
      match parseExpression fuel 0 rest with
      | .error e => .error e
      | .ok (expr2, rest) => parseConditional fuel (.cond node node expr2) rest
    | .operator "?" :: rest =>
      match parseExpression fuel 0 rest with
      | .error e => .error e
      | .ok (expr1, .operator ":" :: rest) =>
        match parseExpression fuel 0 rest with
        | .error e => .error e
        | .ok (expr2, rest) => parseConditional fuel (.cond node expr1 expr2) rest
      | .ok (_, rest) => .error (unexpectedToken rest.head?)
    | _ => .ok (node, ts)

/-- A primary: a negation, a parenthesised expression, a literal, an identifier or
a call, each followed by its postfix accesses. -/
def parsePrimary : Nat → List Token → Except String (Node × List Token)
  | 0, _ => .error "expression too deep"
  | fuel + 1, ts =>
    match ts with
    | .operator text :: rest =>
      if text = "!" ∨ text = "not" then
        match parseExpression fuel 50 rest with
        | .error e => .error e
        | .ok (expr, rest) => parsePostfix fuel (.unary .not text expr) rest
      else .error (unexpectedToken ts.head?)
    | .bracket "(" :: rest =>
      match parseExpression fuel 0 rest with
      | .error e => .error e
      | .ok (expr, .bracket ")" :: rest) => parsePostfix fuel expr rest
      | .ok (_, rest) => .error (unexpectedToken rest.head?)
    | .identifier name :: rest =>
      if name = "true" then parsePostfix fuel (.boolLit true) rest
      else if name = "false" then parsePostfix fuel (.boolLit false) rest
      else if name = "nil" then parsePostfix fuel .nilLit rest
      else
        match rest with
        | .bracket "(" :: rest =>
          match parseArguments fuel true rest with
          | .error e => .error e
          | .ok (args, rest) => parsePostfix fuel (.call name args) rest
        | _ => parsePostfix fuel (.ident name) rest
    | .number n :: rest => parsePostfix fuel (.intLit n) rest
    | .float m d :: rest => parsePostfix fuel (.floatLit m d) rest
    | .string s :: rest => parsePostfix fuel (.strLit s) rest
    | _ => .error (unexpectedToken ts.head?)

/-- The arguments of a call, after the opening bracket, up to the closing one. -/
def parseArguments : Nat → Bool → List Token → Except String (Node × List Token)
  | 0, _, _ => .error "expression too deep"
  | fuel + 1, first, ts =>
    match ts with
    | .bracket ")" :: rest => .ok (.argsNil, rest)
    | _ =>
      let afterComma : Except String (List Token) :=
        if first then .ok ts
        else
          match ts with
          | .operator "," :: rest => .ok rest
          | _ => .error (unexpectedToken ts.head?)
      match afterComma with
      | .error e => .error e
      | .ok ts =>
        match parseExpression fuel 0 ts with
        | .error e => .error e
        | .ok (arg, rest) =>
          match parseArguments fuel false rest with
          | .error e => .error e
          | .ok (args, rest) => .ok (.argsCons arg args, rest)

/-- The member, method and index accesses that follow `node`. -/
def parsePostfix : Nat → Node → List Token → Except String (Node × List Token)
  | 0, _, _ => .error "expression too deep"
  | fuel + 1, node, ts =>
    match ts with
    | .operator "." :: .identifier name :: .bracket "(" :: rest =>
      match parseArguments fuel true rest with
      | .error e => .error e
      | .ok (args, rest) => parsePostfix fuel (.method node name args) rest
    | .operator "." :: .identifier name :: rest => parsePostfix fuel (.member node name) rest
    | .operator "." :: _ => .error "expected name"
    | .bracket "[" :: rest =>
      match parseExpression fuel 0 rest with
      | .error e => .error e
      | .ok (i, .bracket "]" :: rest) => parsePostfix fuel (.index node i) rest
      | .ok (_, rest) => .error (unexpectedToken rest.head?)
    | _ => .ok (node, ts)

end

/-- A parsed expression with its source, as the library's `parser.Tree`. -/
structure Tree where
  Node : Node
  Source : String

/-- The library's `parser.Parse`, on the fragment. -/
def parse (source : String) : Except GoError Tree :=
  match lex source with
  | .error e => .error (libError e source)
  | .ok ts =>
    match parseExpression (4 * ts.length + 8) 0 ts with
    | .error e => .error (libError e source)
    | .ok (node, []) => .ok ⟨node, source⟩
    | .ok (_, t :: _) => .error (libError (unexpectedToken (some t)) source)

/-! ### Checker: the static typing of the strict pass -/

/-- Whether a static type may stand where a boolean is required. -/
def Ty.isBool (t : Ty) : Bool :=
  t = .bool || t = .any

/-- Whether a static type may stand where a number is required. -/
def Ty.isNumber (t : Ty) : Bool :=
  t = .int || t = .int64 || t = .float64 || t = .any || t = .float32 || t = .int32
    || t = .int16 || t = .int8 || t = .uint64 || t = .uint32 || t = .uint16 || t = .uint8
    || t = .uint

/-- Whether a static type may stand where a string is required. -/
def Ty.isString (t : Ty) : Bool :=
  t = .string || t = .any

/-- Whether a static type is one of the two nil types. -/
def Ty.isNil (t : Ty) : Bool :=
  t = .nilLiteral || t = .nilValue

/-- Whether a static type is the type of a function. -/
def Ty.isFunc : Ty → Bool
  | .func _ => true
  | _ => false

/-- Modelled from the spec: which operands `==` and `!=` accept in the strict pass.
The literal `nil` is comparable with an operand of every type (§8: with
`result = 1` the comparison `result == nil` is accepted and the unknown name of
the other branch is what the strict pass reports).  An operand whose static type
is that of a nil value is comparable with a nil operand only: against every other
type it is the "type mismatch against a nil operand" of §4.1, after which the lax
pass decides (the cases `result == 0` and `result != 0` of `TestEvaluateNil`). -/
def Ty.comparable (l r : Ty) : Bool :=
  l = .nilLiteral || r = .nilLiteral || l = r || l = .any || r = .any
    || (l.isFunc && r.isFunc)

/-- The message of the strict pass for a binary operator whose operands do not fit. -/
def mismatchedTypes (text : String) (l r : Ty) : String :=
  "invalid operation: " ++ text ++ " (mismatched types " ++ l.name ++ " and " ++ r.name ++ ")"

/-- The static type of a binary operation on operands of types `l` and `r`. -/
def checkBinary (op : BinOp) (text : String) (l r : Ty) : Except String Ty :=
  match op with
  | .eq | .ne =>
    if (l.isNumber && r.isNumber) || l.comparable r then .ok .bool
    else .error (mismatchedTypes text l r)
  | .or | .and =>
    if l.isBool && r.isBool then .ok .bool
    else .error (mismatchedTypes text l r)
  | .lt | .gt | .le | .ge =>
    if (l.isNumber && r.isNumber) || (l.isString && r.isString) then .ok .bool
    else .error (mismatchedTypes text l r)

/-- The number of arguments of a call. -/
def argCount : Node → Nat
  | .argsCons _ tl => argCount tl + 1
  | _ => 0

/-- The type of the parameter of a helper. -/
def Helper.paramType : Helper → Ty
  | .asInt => .any
  | .asFloat => .any
  | .isNaN => .float64
  | .isInf => .float64

/-- The type of the value a helper returns. -/
def Helper.returnType : Helper → Ty
  | .asInt => .int64
  | .asFloat => .float64
  | .isNaN => .bool
  | .isInf => .bool

/-- Whether the strict pass accepts an argument of static type `t` (the argument
node is `arg`) for a parameter of type `param`: an integer literal takes the
parameter's numeric type, a nil argument is passed unchecked. -/
def argumentFits (arg : Node) (t param : Ty) : Bool :=
  t.isNil || t = .any || param = .any || t = param
    || (match arg with
        | .intLit _ => param.isNumber
        | _ => false)

/-- Modelled from the spec: the checker of the library (§4.1: "full static type
checking, unknown-identifier errors surfaced").  It walks the tree from left to
right and stops at the first error.  With `strict = false` an unknown name has
the type `interface {}`.  Only an operand of the type `interface {}` has members,
elements and methods: on an operand of any other type, a nil type included, the
access is an error (`type <nil> has no field subfield`,
`invalid operation: type <nil> does not support indexing`). -/
def typeOf (env : Env Value) (strict : Bool) : Node → Except String Ty
  | .nilLit => .ok .nilLiteral
  | .boolLit _ => .ok .bool
  | .intLit _ => .ok .int
  | .floatLit _ _ => .ok .float64
  | .strLit _ => .ok .string
  | .ident name =>
    match env.lookup name with
    | some (.value v) => .ok v.staticType
    | some (.helper h) => .ok (.func h)
    | none => if strict then .error ("unknown name " ++ name) else .ok .any
  | .unary _ text n =>
    match typeOf env strict n with
    | .error e => .error e
    | .ok t =>
      if t.isBool then .ok .bool
      else .error ("invalid operation: " ++ text ++ " (mismatched type " ++ t.name ++ ")")
  | .binary op text l r =>
    match typeOf env strict l with
    | .error e => .error e
    | .ok tl =>
      match typeOf env strict r with
      | .error e => .error e
      | .ok tr => checkBinary op text tl tr
  | .member n property =>
    match typeOf env strict n with
    | .error e => .error e
    | .ok t =>
      if t = .any then .ok .any
      else .error ("type " ++ t.name ++ " has no field " ++ property)
  | .index n i =>
    match typeOf env strict n with
    | .error e => .error e
    | .ok t =>
      match typeOf env strict i with
      | .error e => .error e
      | .ok ti =>
        if t = .any then
          if ti = .int || ti = .int64 || ti = .string || ti = .any then .ok .any
          else .error ("invalid operation: cannot use " ++ ti.name ++ " as index to " ++ t.name)
        else .error ("invalid operation: type " ++ t.name ++ " does not support indexing")
  | .method n name _ =>
    match typeOf env strict n with
    | .error e => .error e
    | .ok t =>
      if t = .any then .ok .any
      else .error ("type " ++ t.name ++ " has no method " ++ name)
  | .call name args =>
    match env.lookup name with
    | some (.helper h) =>
      match args with
      | .argsCons arg .argsNil =>
        match typeOf env strict arg with
        | .error e => .error e
        | .ok t =>
          if argumentFits arg t h.paramType then .ok h.returnType
          else .error ("cannot use " ++ t.name ++ " as argument (type " ++ h.paramType.name
                ++ ") to call " ++ name ++ " ")
      | _ =>
        if argCount args > 1 then .error ("too many arguments to call " ++ name)
        else .error ("not enough arguments to call " ++ name)
    | _ => if strict then .error ("unknown func " ++ name) else .ok .any
  | .argsNil => .ok .any
  | .argsCons _ _ => .ok .any
  | .cond c a b =>
    match typeOf env strict c with
    | .error e => .error e
    | .ok tc =>
      if !tc.isBool then
        .error ("non-bool expression (type " ++ tc.name ++ ") used as condition")
      else
        match typeOf env strict a with
        | .error e => .error e
        | .ok ta =>
          match typeOf env strict b with
          | .error e => .error e
          | .ok tb =>
            if ta.isNil && !tb.isNil then .ok tb
            else if !ta.isNil && tb.isNil then .ok ta
            else if ta = tb then .ok ta
            else .ok .any

/-- The library's `checker.Check`: the tree is returned as it is, its type
annotations have no effect on the fragment. -/
def check (tree : Tree) (config : Config Value) : Except GoError Tree :=
  match typeOf config.Env config.Strict tree.Node with
  | .error e => .error (libError e tree.Source)
  | .ok _ => .ok tree

/-! ### Running an expression -/

/-- The number a numeric value stands for, as a float. -/
def Value.toFloat : Value → Option Float
  | .int n => some (Float.ofInt n)
  | .int64 n => some (Float.ofInt n)
  | .float64 x => some x
  | .float32 x => some x
  | .int32 n => some (Float.ofInt n)
  | .int16 n => some (Float.ofInt n)
  | .int8 n => some (Float.ofInt n)
  | .uint64 n => some (Float.ofInt n)
  | .uint32 n => some (Float.ofInt n)
  | .uint16 n => some (Float.ofInt n)
  | .uint8 n => some (Float.ofInt n)
  | .uint n => some (Float.ofInt n)
  | _ => none

/-- The integer of an integer value. -/
def Value.toInt : Value → Option Int
  | .int n => some n
  | .int64 n => some n
  | .int32 n => some n
  | .int16 n => some n
  | .int8 n => some n
  | .uint64 n => some n
  | .uint32 n => some n
  | .uint16 n => some n
  | .uint8 n => some n
  | .uint n => some n
  | _ => none

/-- Equality at run time: numbers by value, strings and booleans by content, nil
equals nil only, and values of different kinds are unequal (the tests of
`TestEvaluateNil`: a nil result is unequal to `0`, `"nil"`, `false` and `true`). -/
def valueEq (a b : Value) : Bool :=
  match a, b with
  | .nil, .nil => true
  | .bool x, .bool y => x == y
  | .string x, .string y => x == y
  | _, _ =>
    match a.toInt, b.toInt with
    | some x, some y => x == y
    | _, _ =>
      match a.toFloat, b.toFloat with
      | some x, some y => x == y
      | _, _ => false

/-- The order comparisons of two integers, floats or strings. -/
def orderInt (op : BinOp) (x y : Int) : Bool :=
  match op with
  | .lt => x < y
  | .gt => x > y
  | .le => x ≤ y
  | _ => x ≥ y

/-- The order comparisons of two floats. -/
def orderFloat (op : BinOp) (x y : Float) : Bool :=
  match op with
  | .lt => x < y
  | .gt => x > y
  | .le => x ≤ y
  | _ => x ≥ y

/-- The order comparisons of two strings. -/
def orderString (op : BinOp) (x y : String) : Bool :=
  match op with
  | .lt => x < y
  | .gt => x > y
  | .le => x ≤ y
  | _ => x ≥ y

/-- Ordering at run time: defined on two numbers and on two strings; on anything
else the library panics with `invalid operation: <type> <op> <type>` (the test of
`TestEvaluateNil` on `result >= 0` with a nil result). -/
def valueOrder (op : BinOp) (text : String) (a b : Value) : Except String Value :=
  match a, b with
  | .string x, .string y => .ok (.bool (orderString op x y))
  | _, _ =>
    match a.toInt, b.toInt with
    | some x, some y => .ok (.bool (orderInt op x y))
    | _, _ =>
      match a.toFloat, b.toFloat with
      | some x, some y => .ok (.bool (orderFloat op x y))
      | _, _ =>
        .error ("invalid operation: " ++ a.typeName ++ " " ++ text ++ " " ++ b.typeName)

/-- The panic of a failed type assertion to `bool` at run time. -/
def notBool (v : Value) : String :=
  "interface conversion: interface {} is " ++ v.typeName ++ ", not bool"

/-- Modelled from the spec: the library's `expr.Run` on the fragment.  `&&`, `||`
and `? :` evaluate their operands lazily (§4.1, §8: short-circuit).  A name that
is not a key of the environment map reads as nil, as a Go map does.  None of the
values of the model has members, elements or methods, so these accesses fail.
`helpers` is what the Go helper functions of the environment compute; a panic of
a helper ends the run with the panic's message. -/
def evalNode (helpers : Helper → List Value → Except String Value) (env : Env Value) :
    Node → Except String (List Value)
  | .nilLit => .ok [.nil]
  | .boolLit b => .ok [.bool b]
  | .intLit n => .ok [.int n]
  | .floatLit m d => .ok [.float64 (Float.ofScientific m true d)]
  | .strLit s => .ok [.string s]
  | .ident name =>
    match env.lookup name with
    | some (.value v) => .ok [v]
    | some (.helper h) => .ok [.func h]
    | none => .ok [.nil]
  | .unary _ _ n =>
    match evalNode helpers env n with
    | .error e => .error e
    | .ok [.bool b] => .ok [.bool (!b)]
    | .ok vs => .error (notBool (vs.headD .nil))
  | .binary .or _ l r =>
    match evalNode helpers env l with
    | .error e => .error e
    | .ok [.bool true] => .ok [.bool true]
    | .ok [.bool false] => evalNode helpers env r
    | .ok vs => .error (notBool (vs.headD .nil))
  | .binary .and _ l r =>
    match evalNode helpers env l with
    | .error e => .error e
    | .ok [.bool false] => .ok [.bool false]
    | .ok [.bool true] => evalNode helpers env r
    | .ok vs => .error (notBool (vs.headD .nil))
  | .binary op text l r =>
    match evalNode helpers env l with
    | .error e => .error e
    | .ok vl =>
      match evalNode helpers env r with
      | .error e => .error e
      | .ok vr =>
        match op with
        | .eq => .ok [.bool (valueEq (vl.headD .nil) (vr.headD .nil))]
        | .ne => .ok [.bool (!valueEq (vl.headD .nil) (vr.headD .nil))]
        | _ =>
          match valueOrder op text (vl.headD .nil) (vr.headD .nil) with
          | .error e => .error e
          | .ok v => .ok [v]
  | .member n property =>
    match evalNode helpers env n with
    | .error e => .error e
    | .ok vs => .error ("cannot fetch " ++ property ++ " from " ++ (vs.headD .nil).typeName)
  | .index n i =>
    match evalNode helpers env n with
    | .error e => .error e
    | .ok vs =>
      match evalNode helpers env i with
      | .error e => .error e
      | .ok _ => .error ("cannot fetch element from " ++ (vs.headD .nil).typeName)
  | .method n name _ =>
    match evalNode helpers env n with
    | .error e => .error e
    | .ok vs => .error ("cannot get method " ++ name ++ " from " ++ (vs.headD .nil).typeName)
  | .call name args =>
    match evalNode helpers env args with
    | .error e => .error e
    | .ok vs =>
      match env.lookup name with
      | some (.helper h) =>
        match helpers h vs with
        | .error e => .error e
        | .ok v => .ok [v]
      | _ => .error ("cannot call " ++ name)
  | .argsNil => .ok []
  | .argsCons hd tl =>
    match evalNode helpers env hd with
    | .error e => .error e
    | .ok v =>
      match evalNode helpers env tl with
      | .error e => .error e
      | .ok vs => .ok (v.headD .nil :: vs)
  | .cond c a b =>
    match evalNode helpers env c with
    | .error e => .error e
    | .ok [.bool true] => evalNode helpers env a
    | .ok [.bool false] => evalNode helpers env b
    | .ok vs => .error (notBool (vs.headD .nil))

/-- The library's `expr.Run`: the value of the program, or the error of the run. -/
def run (helpers : Helper → List Value → Except String Value) (program : Tree)
    (env : Env Value) : Except GoError Value :=
  match evalNode helpers env program.Node with
  | .error e => .error (libError e program.Source)
  | .ok vs => .ok (vs.headD .nil)

/-- Modelled from the spec: the expression library on the fragment, for given
helper functions.  The configuration of `eval` defines no operators, so its
check passes, and compiling a tree of the fragment keeps it as it is. -/
def exprModel (helpers : Helper → List Value → Except String Value) : ExprLib Value where
  Tree := Tree
  Program := Tree
  configCheck := fun _ => none
  parse := parse
  check := check
  compile := fun tree _ => .ok tree
  run := run helpers
  asBool := Value.asBool
  typeName := Value.typeName

/-! ### The helper functions of `evaluate.go` -/

/-- The facts of the Go run time and standard library that the helpers depend on
and that are parameters of the embedding: `strconv.Quote`, `strconv.ParseFloat`
for 64 bits, and the text that `%v` prints for a function value. -/
structure GoRuntime where
  quote : String → String
  parseFloat : String → Except Strconv.ConvError Float
  funcPointer : Helper → String

/-- The conversion `int64(i)` of an integer of 64 bits: the value modulo `2^64`, in
the range of `int64`. -/
def toInt64 (n : Int) : Int :=
  (n + 2 ^ 63) % 2 ^ 64 - 2 ^ 63

/-- The conversion `int64(i)` of a float: the fraction is discarded.  For a value
that is not in the range of `int64`, NaN and the infinities included, Go leaves
the result to the implementation; on amd64 it is the least `int64`. -/
def floatToInt64 (x : Float) : Int :=
  if x.isNaN || decide (x ≥ 9223372036854775808) || decide (x < -9223372036854775808) then
    -(2 : Int) ^ 63
  else if x < 0 then -(((Float.floor (-x)).toUInt64.toNat : Nat) : Int)
  else (((Float.floor x).toUInt64.toNat : Nat) : Int)

/-- The function `isInf`. -/
def isInf (f : Float) : Bool :=
  f.isInf

/-- The function `asInt`: the `int64` of a number or of a string that denotes one;
`.error` is a panic, with the text of the value the function panics with. -/
def asInt (rt : GoRuntime) : Value → Except String Int
  | .float64 i => .ok (floatToInt64 i)
  | .float32 i => .ok (floatToInt64 i)
  | .int64 i => .ok i
  | .int32 i => .ok i
  | .int16 i => .ok i
  | .int8 i => .ok i
  | .int i => .ok i
  | .uint64 i => .ok (toInt64 i)
  | .uint32 i => .ok i
  | .uint16 i => .ok i
  | .uint8 i => .ok i
  | .uint i => .ok (toInt64 i)
  | .string i =>
    match Strconv.ParseInt i 64 with
    | .ok inAsInt => .ok inAsInt
    | .error err => .error (Strconv.numErrorText rt.quote "ParseInt" i err)
  | .nil => .error "asInt() not supported on <nil> <nil>"
  | .bool b => .error ("asInt() not supported on bool " ++ toString b)
  | .func h =>
    .error ("asInt() not supported on " ++ Value.typeName (.func h) ++ " " ++ rt.funcPointer h)
  | .other typeName text => .error ("asInt() not supported on " ++ typeName ++ " " ++ text)

/-- The function `asFloat`: the `float64` of a number or of a string that denotes
one; `.error` is a panic, with the text of the value the function panics with. -/
def asFloat (rt : GoRuntime) : Value → Except String Float
  | .float64 i => .ok i
  | .float32 i => .ok i
  | .int64 i => .ok (Float.ofInt i)
  | .int32 i => .ok (Float.ofInt i)
  | .int16 i => .ok (Float.ofInt i)
  | .int8 i => .ok (Float.ofInt i)
  | .int i => .ok (Float.ofInt i)
  | .uint64 i => .ok (Float.ofInt i)
  | .uint32 i => .ok (Float.ofInt i)
  | .uint16 i => .ok (Float.ofInt i)
  | .uint8 i => .ok (Float.ofInt i)
  | .uint i => .ok (Float.ofInt i)
  | .string i =>
    match rt.parseFloat i with
    | .ok inAsFloat => .ok inAsFloat
    | .error err => .error (Strconv.numErrorText rt.quote "ParseFloat" i err)
  | .nil => .error "asFloat() not supported on <nil> <nil>"
  | .bool b => .error ("asFloat() not supported on bool " ++ toString b)
  | .func h =>
    .error ("asFloat() not supported on " ++ Value.typeName (.func h) ++ " " ++ rt.funcPointer h)
  | .other typeName text => .error ("asFloat() not supported on " ++ typeName ++ " " ++ text)

/-- What the helper functions of the environment compute when the library calls
them: `asInt`, `asFloat`, `math.IsNaN` and `isInf`.  A call whose arguments do
not fit the function panics in the reflection of the Go run time. -/
def goHelpers (rt : GoRuntime) : Helper → List Value → Except String Value
  | .asInt, [v] =>
    match asInt rt v with
    | .ok n => .ok (.int64 n)
    | .error e => .error e
  | .asFloat, [v] =>
    match asFloat rt v with
    | .ok x => .ok (.float64 x)
    | .error e => .error e
  | .isNaN, [.float64 f] => .ok (.bool f.isNaN)
  | .isInf, [.float64 f] => .ok (.bool (isInf f))
  | _, _ => .error "reflect: Call with arguments that do not fit the function"

/-- The number that a list of decimal digits denotes. -/
def decimalValue (digits : List Char) : Nat :=
  Nat.ofDigits 10 (digits.reverse.map (fun c => c.toNat - 48))

/-- What the claims call a valid base-10 signed 64-bit integer literal with the value
`n`: an optional sign, then one or more decimal digits, denoting a number in the
range of `int64`. -/
def IsInt64Literal (s : String) (n : Int) : Prop :=
  ∃ (sign digits : List Char),
    s.data = sign ++ digits
    ∧ (sign = [] ∨ sign = [Char.ofNat 43] ∨ sign = [Char.ofNat 45])
    ∧ digits ≠ []
    ∧ (∀ c ∈ digits, c.isDigit = true)
    ∧ n = (if sign = [Char.ofNat 45] then -(decimalValue digits : Int)
           else (decimalValue digits : Int))
    ∧ -(2 : Int) ^ 63 ≤ n ∧ n < 2 ^ 63

/-- The quoting of a text of printable ASCII characters without quote and backslash,
on which `strconv.Quote` sets the text between double quotes. -/
def plainQuote (s : String) : String :=
  quoted s

/-- The results of `strconv.ParseFloat` on the inputs of `TestAsFloat` and
`TestEvaluateAsFloatError`: `1` and `1.1` denote floats, and every other string
of these tests (`notfloat`, `NotANum`) is malformed. -/
def testParseFloat (s : String) : Except Strconv.ConvError Float :=
  if s = "1" then .ok 1
  else if s = "1.1" then .ok 1.1
  else .error .invalid

/-- A Go run time for the inputs of the tests. -/
def testRuntime : GoRuntime where
  quote := plainQuote
  parseFloat := testParseFloat
  funcPointer := fun _ => "0x0"

/-- The call `asInt(result)`. -/
def asIntOfResult : Node :=
  .call "asInt" (.argsCons (.ident "result") .argsNil)

/-- The call `asFloat(result)`. -/
def asFloatOfResult : Node :=
  .call "asFloat" (.argsCons (.ident "result") .argsNil)

/-- The words the lexer reads as literals or operators and not as names. -/
def isKeyword (w : String) : Bool :=
  w = "true" || w = "false" || w = "nil" || w = "and" || w = "or" || w = "not" || w = "in"
    || w = "matches" || w = "contains" || w = "startsWith" || w = "endsWith"

/-- An identifier of the expression language: a letter or underscore followed by
letters, digits and underscores, that is not a keyword. -/
def isIdentifier (x : String) : Bool :=
  match x.data with
  | [] => false
  | c :: cs => isIdentStart c && cs.all isIdentChar && !isKeyword x

/-- Helpers that always panic: enough for expressions that call no helper. -/
def panickingHelpers : Helper → List Value → Except String Value :=
  fun _ _ => .error "helper panicked"

/-- The calls of helper functions that `evalNode` performs on a node, in the order
of the run, each with the helper and the values of its arguments.  The list
follows the evaluation order of `evalNode` clause by clause: an operand that
`evalNode` does not evaluate (the right operand of a decided `||` or `&&`, the
branch of `? :` not taken, whatever follows a failure) contributes no call. -/
def helperCalls (helpers : Helper → List Value → Except String Value) (env : Env Value) :
    Node → List (Helper × List Value)
  | .unary _ _ n => helperCalls helpers env n
  | .binary .or _ l r =>
    helperCalls helpers env l ++
      (match evalNode helpers env l with
       | .ok [.bool false] => helperCalls helpers env r
       | _ => [])
  | .binary .and _ l r =>
    helperCalls helpers env l ++
      (match evalNode helpers env l with
       | .ok [.bool true] => helperCalls helpers env r
       | _ => [])
  | .binary _ _ l r =>
    helperCalls helpers env l ++
      (match evalNode helpers env l with
       | .ok _ => helperCalls helpers env r
       | .error _ => [])
  | .member n _ => helperCalls helpers env n
  | .index n i =>
    helperCalls helpers env n ++
      (match evalNode helpers env n with
       | .ok _ => helperCalls helpers env i
       | .error _ => [])
  | .method n _ _ => helperCalls helpers env n
  | .call name args =>
    helperCalls helpers env args ++
      (match evalNode helpers env args with
       | .error _ => []
       | .ok vs =>
         match env.lookup name with
         | some (.helper h) => [(h, vs)]
         | _ => [])
  | .argsCons hd tl =>
    helperCalls helpers env hd ++
      (match evalNode helpers env hd with
       | .ok _ => helperCalls helpers env tl
       | .error _ => [])
  | .cond c a b =>
    helperCalls helpers env c ++
      (match evalNode helpers env c with
       | .ok [.bool true] => helperCalls helpers env a
       | .ok [.bool false] => helperCalls helpers env b
       | _ => [])
  | _ => []

end Evaluate

/-! ## The rollout phase

`GetRolloutPhase` of `utils/rollout` is not under `src/`: `rollout.go` holds
comments only, and the function is known from `rolloututil_test.go` and from §4.3
of the specification.
-/

namespace RolloutUtil

/-- The phases of a rollout (§1). -/
inductive RolloutPhase
  | Healthy
  | Progressing
  | Paused
  | Degraded
  deriving DecidableEq, Repr

/-- A condition of the status: type, reason and message (§3). -/
structure RolloutCondition where
  CondType : String
  Reason : String
  Message : String
  deriving DecidableEq, Repr

/-- A duration given as a number of seconds or as a text such as `10s`. -/
inductive IntOrString
  | int (n : Int)
  | string (s : String)
  deriving DecidableEq, Repr

/-- The step `SetCanaryScale` (§3). -/
structure SetCanaryScale where
  Weight : Option Int
  Replicas : Option Int
  MatchTrafficWeight : Bool
  deriving DecidableEq, Repr

/-- A step of a canary plan (§3): exactly one variant is populated. -/
inductive CanaryStep
  | SetWeight (weight : Int)
  | Pause (duration : Option IntOrString)
  | Experiment
  | Analysis
  | SetCanaryScale (scale : SetCanaryScale)
  deriving DecidableEq, Repr

/-- The strategy of a rollout (§3): exactly one of canary and blue-green is set. -/
inductive Strategy
  | Canary (steps : List CanaryStep)
  | BlueGreen
  deriving DecidableEq, Repr

/-- The snapshot of a rollout that the phase is determined from (§3).  Time stamps
are seconds; `WorkloadRefGeneration` is the value of the workload-generation
annotation, if the annotation is present. -/
structure Rollout where
  Generation : Int
  WorkloadRefGeneration : Option String
  Replicas : Option Int
  Strategy : Strategy
  Paused : Bool
  RestartAt : Option Int
  TemplateResolvedFromRef : Bool
  ObservedGeneration : String
  WorkloadObservedGeneration : String
  StatusReplicas : Int
  ReadyReplicas : Int
  UpdatedReplicas : Int
  AvailableReplicas : Int
  CurrentPodHash : String
  StableRS : String
  CurrentStepIndex : Option Int
  CurrentStepHash : String
  ActiveSelector : String
  RestartedAt : Option Int
  Conditions : List RolloutCondition
  deriving DecidableEq, Repr

/-- The desired replica count: the declared one, or the platform default when it
is absent (§3). -/
def desiredReplicas (defaultReplicas : Int) (ro : Rollout) : Int :=
  match ro.Replicas with
  | some n => n
  | none => defaultReplicas

/-- The shape of a legacy content hash: ten alphanumeric characters (§4.3 e, §9). -/
def isLegacyHash (s : String) : Bool :=
  s.data.length == 10 && s.data.all Char.isAlphanum

/-- Modelled from the spec: `isGenerationObserved`, which is not under `src/` (§4.3 e).
A legacy hash counts as observed, as does every string that is not a decimal
number; a decimal number is observed unless it is less than the generation. -/
def isGenerationObserved (ro : Rollout) : Bool :=
  if isLegacyHash ro.ObservedGeneration then true
  else
    match Strconv.Atoi ro.ObservedGeneration with
    | .error _ => true
    | .ok observedGen => !(observedGen < ro.Generation)

/-- Modelled from the spec: `isWorkloadGenerationObserved`, which is not under `src/`
(§4.3 f): the annotation value and the status field are compared as integers,
and the check is skipped when either is absent.  The test of
`rolloututil_test.go` (lines 237 to 255) adds that a status value such as
`222222222222222222`, which is no 32-bit integer, counts as absent, and that the
function itself does not look at `TemplateResolvedFromRef`. -/
def isWorkloadGenerationObserved (ro : Rollout) : Bool :=
  match ro.WorkloadRefGeneration with
  | none => true
  | some annotation =>
    match Strconv.ParseInt annotation 32 with
    | .error _ => true
    | .ok workloadGeneration =>
      match Strconv.ParseInt ro.WorkloadObservedGeneration 32 with
      | .error _ => true
      | .ok observedWorkloadGen => observedWorkloadGen == workloadGeneration

/-- Whether a restart was requested and has not been carried out (§4.3 g). -/
def isRestartPending (ro : Rollout) : Bool :=
  match ro.RestartAt with
  | none => false
  | some restartAt =>
    match ro.RestartedAt with
    | none => true
    | some restartedAt => restartedAt < restartAt

/-- The first condition of the status whose reason is a terminal-failure reason. -/
def terminalCondition (isTerminalReason : String → Bool) (ro : Rollout) :
    Option RolloutCondition :=
  ro.Conditions.find? (fun c => isTerminalReason c.Reason)

/-- Modelled from the spec: `GetRolloutPhase`, which is not under `src/`; this is the
ladder of §4.3, the first matching rule wins.  The registry of terminal-failure
reasons (§9) and the platform default of the replica count (§3) are parameters.
Where `rolloututil_test.go` fixes a behaviour that §4.3 words differently, the
test is followed:
* the generation checks e and f are decided before the replica checks a, b and c
  (lines 167 to 180 and 225 to 236: with `updatedReplicas < desiredReplicas` the
  message is the one of the generation check);
* the message of rule c is `old replicas are pending termination` (line 125);
* a blue-green rollout waits for analysis only while the stable hash differs from
  the current one (lines 271 to 283: with the three hashes equal it is Healthy). -/
def GetRolloutPhase (isTerminalReason : String → Bool) (defaultReplicas : Int)
    (ro : Rollout) : RolloutPhase × String :=
  match terminalCondition isTerminalReason ro with
  | some cond => (.Degraded, cond.Reason ++ ": " ++ cond.Message)
  | none =>
    if ro.Paused then (.Paused, "manually paused")
    else if !isGenerationObserved ro then
      (.Progressing, "waiting for rollout spec update to be observed")
    else if ro.TemplateResolvedFromRef && !isWorkloadGenerationObserved ro then
      (.Progressing, "waiting for rollout spec update to be observed for the reference workload")
    else if ro.UpdatedReplicas < desiredReplicas defaultReplicas ro then
      (.Progressing, "more replicas need to be updated")
    else if ro.AvailableReplicas < ro.UpdatedReplicas then
      (.Progressing, "updated replicas are still becoming available")
    else if ro.StatusReplicas > desiredReplicas defaultReplicas ro then
      (.Progressing, "old replicas are pending termination")
    else if ro.Strategy = .BlueGreen ∧ ro.ActiveSelector = ro.CurrentPodHash
        ∧ ro.StableRS ≠ ro.CurrentPodHash then
      (.Progressing, "waiting for analysis to complete")
    else if ro.Strategy = .BlueGreen ∧ ro.ActiveSelector = ro.StableRS
        ∧ ro.ActiveSelector ≠ ro.CurrentPodHash then
      (.Progressing, "active service cutover pending")
    else if isRestartPending ro then
      (.Progressing, "rollout is restarting")
    else (.Healthy, "")

/-- The terminal-failure reasons that the tests name. -/
def testTerminalReasons (reason : String) : Bool :=
  reason = "ProgressDeadlineExceeded" || reason = "RolloutAborted" || reason = "InvalidSpec"

/-- The rollout `newCanaryRollout` of `rolloututil_test.go`. -/
def newCanaryRollout : Rollout where
  Generation := 0
  WorkloadRefGeneration := none
  Replicas := some 5
  Strategy := .Canary [.SetWeight 10, .Pause (some (.int 60)), .SetWeight 20]
  Paused := false
  RestartAt := none
  TemplateResolvedFromRef := false
  ObservedGeneration := ""
  WorkloadObservedGeneration := ""
  StatusReplicas := 4
  ReadyReplicas := 1
  UpdatedReplicas := 3
  AvailableReplicas := 2
  CurrentPodHash := ""
  StableRS := ""
  CurrentStepIndex := some 1
  CurrentStepHash := ""
  ActiveSelector := ""
  RestartedAt := none
  Conditions := []

/-- The rollout `newBlueGreenRollout` of `rolloututil_test.go`. -/
def newBlueGreenRollout : Rollout :=
  { newCanaryRollout with Strategy := .BlueGreen }

/-- The rollout of `TestRolloutStatusDegraded`. -/
def degradedRollout : Rollout :=
  { newCanaryRollout with
    Conditions := [⟨"Progressing", "ProgressDeadlineExceeded", "timed out"⟩] }

/-- The rollout of `TestRolloutStatusPaused`. -/
def pausedRollout : Rollout :=
  { newCanaryRollout with Paused := true }

/-- The first rollout of `TestRolloutStatusHealthy`. -/
def healthyRollout : Rollout :=
  { newCanaryRollout with
    StatusReplicas := 5, UpdatedReplicas := 5, AvailableReplicas := 5, ReadyReplicas := 5,
    StableRS := "abc1234", CurrentPodHash := "abc1234" }

/-- A rollout that is as `healthyRollout`, but resolves its template from a
reference workload whose generation `2` is not the observed one. -/
def workloadNotObservedRollout : Rollout :=
  { healthyRollout with
    TemplateResolvedFromRef := true, WorkloadRefGeneration := some "2",
    WorkloadObservedGeneration := "1" }

/-- The first rollout of `TestRolloutStatusProgressing` (lines 97 to 106). -/
def moreReplicasRollout : Rollout :=
  { newCanaryRollout with UpdatedReplicas := 4, AvailableReplicas := 4, StatusReplicas := 5 }

/-- The rollout of `TestRolloutStatusProgressing` whose observed generation is not
updated (lines 167 to 180): generation 2, no declared replica count, and a status
that holds the two hashes and the observed generation `1` only. -/
def generationNotObservedRollout : Rollout :=
  { newCanaryRollout with
    Generation := 2, Replicas := none, ObservedGeneration := "1",
    StableRS := "abc1234", CurrentPodHash := "abc1234",
    StatusReplicas := 0, ReadyReplicas := 0, UpdatedReplicas := 0, AvailableReplicas := 0,
    CurrentStepIndex := none }

/-- The third rollout of `TestRolloutStatusProgressing` (lines 117 to 126). -/
def oldReplicasRollout : Rollout :=
  { newCanaryRollout with UpdatedReplicas := 5, AvailableReplicas := 5, StatusReplicas := 7 }

/-- A rollout that is as `oldReplicasRollout`, with generation 2 and the observed
generation `1`. -/
def oldReplicasNotObservedRollout : Rollout :=
  { oldReplicasRollout with Generation := 2, ObservedGeneration := "1" }

/-- The rollout of `TestRolloutStatusProgressing` whose observed generation is the
legacy hash `7d66d4485f` (lines 181 to 195). -/
def legacyHashRollout : Rollout :=
  { generationNotObservedRollout with ObservedGeneration := "7d66d4485f" }

/-- The rollout of `TestRolloutStatusProgressing` whose observed generation is the
legacy hash `1366344857`, made of digits only (lines 196 to 209). -/
def numericLegacyHashRollout : Rollout :=
  { generationNotObservedRollout with ObservedGeneration := "1366344857" }

/-- A rollout of generation 2 whose observed generation `not-a-number` is neither a
legacy hash nor a decimal number. -/
def malformedGenerationRollout : Rollout :=
  { generationNotObservedRollout with ObservedGeneration := "not-a-number" }

/-- Four steps that set the weight to 1, 20, 79 and 83. -/
def weightSteps1 : List CanaryStep :=
  [.SetWeight 1, .SetWeight 20, .SetWeight 79, .SetWeight 83]

/-- Four steps that set the weight to 2, 19, 41 and 70. -/
def weightSteps2 : List CanaryStep :=
  [.SetWeight 2, .SetWeight 19, .SetWeight 41, .SetWeight 70]

/-! ### The step hash -/

/-- The JSON text of a step, as `json.Marshal` renders the populated variant under
the name of its field; durations that are texts are texts such as `10s`, without
characters that JSON escapes. -/
def stepJSON : CanaryStep → String
  | .SetWeight weight => "\x7b" ++ Evaluate.quoted "setWeight" ++ ":" ++ toString weight ++ "\x7d"
  | .Pause none => "\x7b" ++ Evaluate.quoted "pause" ++ ":\x7b\x7d\x7d"
  | .Pause (some (.int n)) =>
    "\x7b" ++ Evaluate.quoted "pause" ++ ":\x7b" ++ Evaluate.quoted "duration" ++ ":"
      ++ toString n ++ "\x7d\x7d"
  | .Pause (some (.string d)) =>
    "\x7b" ++ Evaluate.quoted "pause" ++ ":\x7b" ++ Evaluate.quoted "duration" ++ ":"
      ++ Evaluate.quoted d ++ "\x7d\x7d"
  | .Experiment =>
    "\x7b" ++ Evaluate.quoted "experiment" ++ ":\x7b" ++ Evaluate.quoted "templates"
      ++ ":null\x7d\x7d"
  | .Analysis => "\x7b" ++ Evaluate.quoted "analysis" ++ ":\x7b\x7d\x7d"
  | .SetCanaryScale scale =>
    let weight :=
      match scale.Weight with
      | some w => [Evaluate.quoted "weight" ++ ":" ++ toString w]
      | none => []
    let replicas :=
      match scale.Replicas with
      | some r => [Evaluate.quoted "replicas" ++ ":" ++ toString r]
      | none => []
    let matchTrafficWeight :=
      if scale.MatchTrafficWeight then [Evaluate.quoted "matchTrafficWeight" ++ ":true"] else []
    "\x7b" ++ Evaluate.quoted "setCanaryScale" ++ ":\x7b"
      ++ ",".intercalate (weight ++ replicas ++ matchTrafficWeight) ++ "\x7d\x7d"

/-- The JSON text of the step list: `null` for a plan without steps (the nil slice of
`TestComputeStepHash`), else the steps between square brackets. -/
def stepsJSON : List CanaryStep → String
  | [] => "null"
  | steps => "[" ++ ",".intercalate (steps.map stepJSON) ++ "]"

/-- The bytes of a text in UTF-8. -/
def utf8Bytes (s : String) : List Nat :=
  s.data.flatMap (fun c => (String.utf8EncodeChar c).map UInt8.toNat)

/-- The 32-bit FNV-1a hash of a sequence of bytes. -/
def fnv32a (bytes : List Nat) : Nat :=
  bytes.foldl (fun h b => ((h ^^^ b) * 16777619) % 2 ^ 32) 2166136261

/-- The alphabet of content-addressed revision tags. -/
def alphanums : List Char :=
  "bcdfghjklmnpqrstvwxz2456789".data

/-- The character of the alphabet that stands for a character of a text. -/
def safeEncodeChar (c : Char) : Char :=
  alphanums.getD (c.toNat % 27) (Char.ofNat 98)

/-- The digest of a step list: the FNV-1a hash of its JSON text. -/
def stepDigest (steps : List CanaryStep) : Nat :=
  fnv32a (utf8Bytes (stepsJSON steps))

/-- The token of a digest: its decimal digits, each mapped into the alphabet of
revision tags. -/
def digestToken (digest : Nat) : String :=
  String.mk ((Nat.toDigits 10 digest).map safeEncodeChar)

/-- Modelled from the spec: `ComputeStepHash`, which is not under `src/` (§4.2): the
empty fingerprint for a strategy that is not canary, else a deterministic,
order-sensitive digest of the ordered step list only, rendered as a token in the
alphabet of revision tags.  The digest is the 32-bit FNV-1a hash of the JSON
text of the steps and the token maps its decimal digits into the alphabet:
this gives the three fingerprints that `TestComputeStepHash` expects. -/
def ComputeStepHash (ro : Rollout) : String :=
  match ro.Strategy with
  | .BlueGreen => ""
  | .Canary steps => digestToken (stepDigest steps)

/-- Modelled from the spec: `checkStepHashChange`, which is not under `src/` (§4.2,
`hasStepPlanChanged`): whether the fingerprint stored in the status differs from
the freshly computed one. -/
def checkStepHashChange (ro : Rollout) : Bool :=
  ro.CurrentStepHash != ComputeStepHash ro

/-- The rollout `ro` of `TestComputeStepHash`: a canary plan of one pause step. -/
def onePauseRollout : Rollout :=
  { newCanaryRollout with
    Replicas := none, Strategy := .Canary [.Pause none],
    StatusReplicas := 0, ReadyReplicas := 0, UpdatedReplicas := 0, AvailableReplicas := 0,
    CurrentStepIndex := none }

/-- The rollout `roWithDiffSteps` of `TestComputeStepHash`: two pause steps. -/
def twoPausesRollout : Rollout :=
  { onePauseRollout with Strategy := .Canary [.Pause none, .Pause none] }

/-- The rollout `roWithSameSteps` of `TestComputeStepHash`: the steps of `ro`, another
pod hash and replica count. -/
def samePauseRollout : Rollout :=
  { onePauseRollout with CurrentPodHash := "Test", Replicas := some 1 }

/-- The rollout `roNoSteps` of `TestComputeStepHash`: a canary plan without steps. -/
def noStepsRollout : Rollout :=
  { onePauseRollout with Strategy := .Canary [] }

/-- The rollout `roBlueGreen` of `TestComputeStepHash`. -/
def blueGreenNoStepsRollout : Rollout :=
  { onePauseRollout with Strategy := .BlueGreen }

end RolloutUtil

namespace Evaluate

/-! ## Theorems -/

/-- A strict `eval` that returns no error is the whole of `EvalCondition`. -/
theorem EvalCondition_of_strict_ok {V : Type} (L : ExprLib V) (resultValue : V)
    (condition : String) (output : Bool)
    (h : eval L resultValue condition (mkEnv resultValue) true = (output, none)) :
    EvalCondition L resultValue condition = ((output, none), [⟨condition, true⟩]) := by
  simp only [EvalCondition, h]

/-- A strict `eval` that returns an error decides by the regular expression. -/
theorem EvalCondition_of_strict_error {V : Type} (L : ExprLib V) (resultValue : V)
    (condition : String) (output : Bool) (err : GoError)
    (h : eval L resultValue condition (mkEnv resultValue) true = (output, some err)) :
    EvalCondition L resultValue condition =
      if !mismatchedTypesWithNil err.Error then ((false, some err), [⟨condition, true⟩])
      else (eval L resultValue condition (mkEnv resultValue) false,
            [⟨condition, true⟩, ⟨condition, false⟩]) := by
  simp only [EvalCondition, h]

/-- An error of `eval` comes with the boolean `false`. -/
theorem eval_error_false {V : Type} (L : ExprLib V) (resultValue : V) (condition : String)
    (env : Env V) (strict : Bool) (output : Bool) (err : GoError)
    (h : eval L resultValue condition env strict = (output, some err)) : output = false := by
  unfold eval at h
  simp only at h
  split at h
  · simp only [Prod.mk.injEq] at h; exact h.1.symm
  · split at h
    · simp only [Prod.mk.injEq] at h; exact h.1.symm
    · split at h
      · simp only [Prod.mk.injEq] at h; exact h.1.symm
      · split at h
        · simp only [Prod.mk.injEq] at h; exact h.1.symm
        · split at h
          · simp only [Prod.mk.injEq] at h; exact h.1.symm
          · split at h
            · simp only [Prod.mk.injEq] at h; exact h.1.symm
            · simp only [Prod.mk.injEq, reduceCtorEq, and_false] at h

/-- C1: a metric whose SuccessCondition and FailureCondition are both empty is graded
Successful with a nil error for every result value, and no expression is evaluated:
the log of `eval` invocations is empty. -/
theorem EvaluateResult_no_conditions {V : Type} (L : ExprLib V) (result : V) (metric : Metric)
    (hs : metric.SuccessCondition = "") (hf : metric.FailureCondition = "") :
    EvaluateResult L result metric = ((.Successful, none), []) := by
  simp [EvaluateResult, decidePhase, hs, hf]

/-- Witness of C1 on the expression model: the metric of
`TestEvaluateResultNoFailureConditionAndNoSuccessCondition`. -/
theorem EvaluateResult_no_conditions_witness :
    EvaluateResult (exprModel panickingHelpers) (Value.bool true) ⟨"", ""⟩
      = ((.Successful, none), []) :=
  EvaluateResult_no_conditions (exprModel panickingHelpers) (Value.bool true) ⟨"", ""⟩ rfl rfl

/-- C2: with an empty SuccessCondition and a non-empty FailureCondition that evaluates
to `b` without error, the error is nil, the phase is Failed if and only if `b` is
true and Successful if and only if `b` is false, and it is never Inconclusive. -/
theorem EvaluateResult_failure_only {V : Type} (L : ExprLib V) (result : V) (metric : Metric)
    (b : Bool) (log : List EvalCall)
    (hs : metric.SuccessCondition = "") (hf : metric.FailureCondition ≠ "")
    (h : EvalCondition L result metric.FailureCondition = ((b, none), log)) :
    (EvaluateResult L result metric).1.2 = none
    ∧ ((EvaluateResult L result metric).1.1 = .Failed ↔ b = true)
    ∧ ((EvaluateResult L result metric).1.1 = .Successful ↔ b = false)
    ∧ (EvaluateResult L result metric).1.1 ≠ .Inconclusive := by
  cases b <;> simp [EvaluateResult, decidePhase, hs, hf, h]

/-- Witness of C2 on the expression model: the metric of
`TestEvaluateResultNoSuccessConditionAndNotFailing`, graded Successful. -/
theorem EvaluateResult_failure_only_witness :
    EvalCondition (exprModel panickingHelpers) (Value.bool true) "false"
        = ((false, none), [⟨"false", true⟩])
    ∧ (EvaluateResult (exprModel panickingHelpers) (Value.bool true) ⟨"", "false"⟩).1.2 = none
    ∧ ((EvaluateResult (exprModel panickingHelpers) (Value.bool true) ⟨"", "false"⟩).1.1
          = .Failed ↔ false = true)
    ∧ ((EvaluateResult (exprModel panickingHelpers) (Value.bool true) ⟨"", "false"⟩).1.1
          = .Successful ↔ false = false)
    ∧ (EvaluateResult (exprModel panickingHelpers) (Value.bool true) ⟨"", "false"⟩).1.1
          ≠ .Inconclusive :=
  ⟨rfl, EvaluateResult_failure_only (exprModel panickingHelpers) (Value.bool true)
    ⟨"", "false"⟩ false [⟨"false", true⟩] rfl (by decide) rfl⟩

/-- C3: with a non-empty SuccessCondition that evaluates to `b` without error and an
empty FailureCondition, the error is nil, the phase is Failed if and only if `b` is
false and Successful if and only if `b` is true, and it is never Inconclusive. -/
theorem EvaluateResult_success_only {V : Type} (L : ExprLib V) (result : V) (metric : Metric)
    (b : Bool) (log : List EvalCall)
    (hs : metric.SuccessCondition ≠ "") (hf : metric.FailureCondition = "")
    (h : EvalCondition L result metric.SuccessCondition = ((b, none), log)) :
    (EvaluateResult L result metric).1.2 = none
    ∧ ((EvaluateResult L result metric).1.1 = .Failed ↔ b = false)
    ∧ ((EvaluateResult L result metric).1.1 = .Successful ↔ b = true)
    ∧ (EvaluateResult L result metric).1.1 ≠ .Inconclusive := by
  cases b <;> simp [EvaluateResult, decidePhase, hs, hf, h]

/-- Witness of C3 on the expression model: the metric of
`TestEvaluateResultNoFailureConditionAndNotSuccessful`, graded Failed. -/
theorem EvaluateResult_success_only_witness :
    EvalCondition (exprModel panickingHelpers) (Value.bool true) "false"
        = ((false, none), [⟨"false", true⟩])
    ∧ (EvaluateResult (exprModel panickingHelpers) (Value.bool true) ⟨"false", ""⟩).1.2 = none
    ∧ ((EvaluateResult (exprModel panickingHelpers) (Value.bool true) ⟨"false", ""⟩).1.1
          = .Failed ↔ false = false)
    ∧ ((EvaluateResult (exprModel panickingHelpers) (Value.bool true) ⟨"false", ""⟩).1.1
          = .Successful ↔ false = true)
    ∧ (EvaluateResult (exprModel panickingHelpers) (Value.bool true) ⟨"false", ""⟩).1.1
          ≠ .Inconclusive :=
  ⟨rfl, EvaluateResult_success_only (exprModel panickingHelpers) (Value.bool true)
    ⟨"false", ""⟩ false [⟨"false", true⟩] (by decide) rfl rfl⟩

/-- C4: when both conditions are non-empty and both evaluate to false without error,
`EvaluateResult` returns Inconclusive with a nil error. -/
theorem EvaluateResult_both_false {V : Type} (L : ExprLib V) (result : V) (metric : Metric)
    (logS logF : List EvalCall)
    (hs : metric.SuccessCondition ≠ "") (hf : metric.FailureCondition ≠ "")
    (hS : EvalCondition L result metric.SuccessCondition = ((false, none), logS))
    (hF : EvalCondition L result metric.FailureCondition = ((false, none), logF)) :
    (EvaluateResult L result metric).1 = (.Inconclusive, none) := by
  simp [EvaluateResult, decidePhase, hs, hf, hS, hF]

/-- Witness of C4 on the expression model: the metric of
`TestEvaluateResultInconclusive`. -/
theorem EvaluateResult_both_false_witness :
    (EvaluateResult (exprModel panickingHelpers) (Value.bool true) ⟨"false", "false"⟩).1
      = (.Inconclusive, none) :=
  EvaluateResult_both_false (exprModel panickingHelpers) (Value.bool true) ⟨"false", "false"⟩
    [⟨"false", true⟩] [⟨"false", true⟩] (by decide) (by decide) rfl rfl

/-- C5: when both conditions are non-empty and evaluate without error to `s` and `f`,
the result is Failed whenever `f` is true, whatever `s` is, and Successful when `s`
is true and `f` is false; the error is nil in both cases. -/
theorem EvaluateResult_both_conditions {V : Type} (L : ExprLib V) (result : V)
    (metric : Metric) (s f : Bool) (logS logF : List EvalCall)
    (hs : metric.SuccessCondition ≠ "") (hf : metric.FailureCondition ≠ "")
    (hS : EvalCondition L result metric.SuccessCondition = ((s, none), logS))
    (hF : EvalCondition L result metric.FailureCondition = ((f, none), logF)) :
    (f = true → (EvaluateResult L result metric).1 = (.Failed, none))
    ∧ (s = true → f = false → (EvaluateResult L result metric).1 = (.Successful, none)) := by
  cases s <;> cases f <;> simp [EvaluateResult, decidePhase, hs, hf, hS, hF]

/-- Witness of C5 on the expression model: the metrics of `TestEvaluateResultWithFailure`
(both conditions true, graded Failed) and `TestEvaluateResultWithSuccess` (success
true, failure false, graded Successful). -/
theorem EvaluateResult_both_conditions_witness :
    (EvaluateResult (exprModel panickingHelpers) (Value.bool true) ⟨"true", "true"⟩).1
        = (.Failed, none)
    ∧ (EvaluateResult (exprModel panickingHelpers) (Value.bool true) ⟨"true", "false"⟩).1
        = (.Successful, none) :=
  ⟨(EvaluateResult_both_conditions (exprModel panickingHelpers) (Value.bool true)
      ⟨"true", "true"⟩ true true [⟨"true", true⟩] [⟨"true", true⟩]
      (by decide) (by decide) rfl rfl).1 rfl,
   (EvaluateResult_both_conditions (exprModel panickingHelpers) (Value.bool true)
      ⟨"true", "false"⟩ true false [⟨"true", true⟩] [⟨"false", true⟩]
      (by decide) (by decide) rfl rfl).2 rfl rfl⟩

/-- C6: an error of a non-empty condition is returned with the phase Error.  The
success condition is evaluated first: when it returns the error `e`, the result is
`(Error, e)` and the log holds the evaluation of the success condition only, so
the failure condition is not evaluated.  When the success condition is empty or
evaluates without error and the failure condition returns the error `e`, the
result is `(Error, e)`. -/
theorem EvaluateResult_condition_error {V : Type} (L : ExprLib V) (result : V)
    (metric : Metric) (b : Bool) (e : GoError) (log : List EvalCall) :
    (metric.SuccessCondition ≠ "" →
      EvalCondition L result metric.SuccessCondition = ((b, some e), log) →
      EvaluateResult L result metric = ((.Error, some e), log))
    ∧ (metric.FailureCondition ≠ "" →
      (metric.SuccessCondition = "" ∨
        (EvalCondition L result metric.SuccessCondition).1.2 = none) →
      EvalCondition L result metric.FailureCondition = ((b, some e), log) →
      (EvaluateResult L result metric).1 = (.Error, some e)) := by
  constructor
  · intro hs h
    simp [EvaluateResult, hs, h]
  · intro hf hS h
    rcases hS with hS | hS
    · simp [EvaluateResult, hS, hf, h]
    · rcases hc : EvalCondition L result metric.SuccessCondition with ⟨⟨s, err⟩, logS⟩
      rw [hc] at hS
      simp only at hS
      subst hS
      by_cases hs : metric.SuccessCondition = ""
      · simp [EvaluateResult, hs, hf, h]
      · simp [EvaluateResult, hs, hf, h, hc]

/-- Witness of C6 on the expression model: the metrics of
`TestEvaluateResultWithErrorOnSuccessCondition` (the failure condition `true` is
not evaluated) and `TestEvaluateResultWithErrorOnFailureCondition`. -/
theorem EvaluateResult_condition_error_witness :
    EvaluateResult (exprModel panickingHelpers) (Value.bool true) ⟨"a == true", "true"⟩
        = ((.Error, some (.plain "unknown name a")), [⟨"a == true", true⟩])
    ∧ (EvaluateResult (exprModel panickingHelpers) (Value.bool true) ⟨"true", "a == true"⟩).1
        = (.Error, some (.plain "unknown name a")) :=
  ⟨(EvaluateResult_condition_error (exprModel panickingHelpers) (Value.bool true)
      ⟨"a == true", "true"⟩ false (.plain "unknown name a") [⟨"a == true", true⟩]).1
      (by decide) rfl,
   (EvaluateResult_condition_error (exprModel panickingHelpers) (Value.bool true)
      ⟨"true", "a == true"⟩ false (.plain "unknown name a") [⟨"a == true", true⟩]).2
      (by decide) (Or.inr rfl) rfl⟩

/-- C7: when the strict pass returns an error whose message does not match
`mismatched types.*<nil>`, `EvalCondition` returns false with that same error, and
the log holds the strict evaluation only: the lax pass is not attempted. -/
theorem EvalCondition_other_error {V : Type} (L : ExprLib V) (resultValue : V)
    (condition : String) (output : Bool) (err : GoError)
    (h : eval L resultValue condition (mkEnv resultValue) true = (output, some err))
    (hm : mismatchedTypesWithNil err.Error = false) :
    EvalCondition L resultValue condition = ((false, some err), [⟨condition, true⟩]) := by
  rw [EvalCondition_of_strict_error L resultValue condition output err h]
  simp [hm]

/-- Witness of C7 on the expression model: the second case of
`TestEvaluateAsFloatError`, a mismatch between float64 and string, is returned by
the strict pass without a retry. -/
theorem EvalCondition_other_error_witness :
    EvalCondition (exprModel panickingHelpers) (Value.string "1.1") "asFloat(result) == '1.1'"
      = ((false, some (.plain "invalid operation: == (mismatched types float64 and string)")),
         [⟨"asFloat(result) == '1.1'", true⟩]) :=
  EvalCondition_other_error (exprModel panickingHelpers) (Value.string "1.1")
    "asFloat(result) == '1.1'" false
    (.plain "invalid operation: == (mismatched types float64 and string)") rfl rfl

/-- C8: when the strict pass returns an error whose message matches
`mismatched types.*<nil>`, `EvalCondition` returns what one lax evaluation of the
same expression on the same result returns, boolean and error alike, and the log
holds the strict evaluation followed by that one lax evaluation. -/
theorem EvalCondition_nil_mismatch {V : Type} (L : ExprLib V) (resultValue : V)
    (condition : String) (output : Bool) (err : GoError)
    (h : eval L resultValue condition (mkEnv resultValue) true = (output, some err))
    (hm : mismatchedTypesWithNil err.Error = true) :
    EvalCondition L resultValue condition
      = (eval L resultValue condition (mkEnv resultValue) false,
         [⟨condition, true⟩, ⟨condition, false⟩]) := by
  rw [EvalCondition_of_strict_error L resultValue condition output err h]
  simp [hm]

/-- Witness of C8 on the expression model: the case `result >= 0` of `TestEvaluateNil`.
With a nil result the strict pass reports the mismatch against nil, and the failure
of the lax pass, ordering nil against an integer, is what `EvalCondition` returns. -/
theorem EvalCondition_nil_mismatch_witness :
    eval (exprModel panickingHelpers) Value.nil "result >= 0" (mkEnv Value.nil) false
        = (false, some (.plain "invalid operation: <nil> >= int"))
    ∧ EvalCondition (exprModel panickingHelpers) Value.nil "result >= 0"
        = (eval (exprModel panickingHelpers) Value.nil "result >= 0" (mkEnv Value.nil) false,
           [⟨"result >= 0", true⟩, ⟨"result >= 0", false⟩]) :=
  ⟨rfl, EvalCondition_nil_mismatch (exprModel panickingHelpers) Value.nil "result >= 0" false
    (.plain "invalid operation: >= (mismatched types <nil> and int)") rfl rfl⟩

/-- C9, where the code departs from the specification: on the expression model,
`EvalCondition(nil, "result == nil || result.subfield == 0")` returns false with the
error `type <nil> has no field subfield`, and not `(true, nil)` as §8 and
`TestEvaluateNil` expect.  The strict pass fails in the checker, at the member
access on the nil operand; the message does not match the regular expression
`mismatched types.*<nil>`, so `EvalCondition` returns it and the log holds the
strict evaluation only: the lax pass, which alone yields `(true, nil)` by the
short circuit of `||`, is not run. -/
theorem EvalCondition_nil_subfield (helpers : Helper → List Value → Except String Value) :
    EvalCondition (exprModel helpers) Value.nil "result == nil || result.subfield == 0"
        = ((false, some (.plain "type <nil> has no field subfield")),
           [⟨"result == nil || result.subfield == 0", true⟩])
    ∧ eval (exprModel helpers) Value.nil "result == nil || result.subfield == 0"
          (mkEnv Value.nil) true
        = (false, some (.plain "type <nil> has no field subfield"))
    ∧ mismatchedTypesWithNil "type <nil> has no field subfield" = false
    ∧ eval (exprModel helpers) Value.nil "result == nil || result.subfield == 0"
          (mkEnv Value.nil) false
        = (true, none) :=
  ⟨rfl, rfl, rfl, rfl⟩

/-- The case `result == nil || result[0] > 0.9` of `TestEvaluateNil` departs in the same
way: the checker rejects the element access on the nil operand, the message does
not match the regular expression, and the lax pass, which alone yields
`(true, nil)`, is not run. -/
theorem EvalCondition_nil_index (helpers : Helper → List Value → Except String Value) :
    EvalCondition (exprModel helpers) Value.nil "result == nil || result[0] > 0.9"
        = ((false, some (.plain "invalid operation: type <nil> does not support indexing")),
           [⟨"result == nil || result[0] > 0.9", true⟩])
    ∧ mismatchedTypesWithNil "invalid operation: type <nil> does not support indexing" = false
    ∧ eval (exprModel helpers) Value.nil "result == nil || result[0] > 0.9"
          (mkEnv Value.nil) false
        = (true, none) :=
  ⟨rfl, rfl, rfl⟩

/-- C10: on the expression model, `EvalCondition(1, "result == nil ? true : shouldNotEvaluate")`
returns false with the error `unknown name shouldNotEvaluate`.  The error is the one
of the strict pass, and the log holds the strict evaluation only: the lax pass is
not run. -/
theorem EvalCondition_unknown_name_in_branch
    (helpers : Helper → List Value → Except String Value) :
    EvalCondition (exprModel helpers) (Value.int 1) "result == nil ? true : shouldNotEvaluate"
        = ((false, some (.plain "unknown name shouldNotEvaluate")),
           [⟨"result == nil ? true : shouldNotEvaluate", true⟩])
    ∧ eval (exprModel helpers) (Value.int 1) "result == nil ? true : shouldNotEvaluate"
          (mkEnv (Value.int 1)) true
        = (false, some (.plain "unknown name shouldNotEvaluate")) :=
  ⟨rfl, rfl⟩

/-- The function `eval` is `evalOutput` followed by the type assertion to `bool`. -/
theorem eval_eq_evalOutput {V : Type} (L : ExprLib V) (resultValue : V) (condition : String)
    (env : Env V) (strict : Bool) :
    eval L resultValue condition env strict =
      match evalOutput L condition env strict with
      | .error err => (false, some err)
      | .ok output =>
        match L.asBool output with
        | none => (false, some (.plain ("expected bool, but got " ++ L.typeName output)))
        | some val => (val, none) := by
  unfold eval evalOutput
  simp only
  split
  · rfl
  · split
    · rfl
    · split
      · rfl
      · split
        · rfl
        · split <;> rfl

/-- C11: when the evaluation of an expression completes without error and produces
a value `output` that is not a boolean, `EvalCondition` returns false with the
error `expected bool, but got <T>`, `<T>` being the name of the dynamic type of
`output`.  The evaluation is that of each pass `EvalCondition` runs: the strict
pass, and the lax pass in case the text of the error is one the regular
expression matches. -/
theorem EvalCondition_non_bool {V : Type} (L : ExprLib V) (resultValue : V)
    (condition : String) (output : V)
    (hS : evalOutput L condition (mkEnv resultValue) true = .ok output)
    (hb : L.asBool output = none)
    (hL : mismatchedTypesWithNil ("expected bool, but got " ++ L.typeName output) = true →
      evalOutput L condition (mkEnv resultValue) false = .ok output) :
    (EvalCondition L resultValue condition).1
      = (false, some (.plain ("expected bool, but got " ++ L.typeName output))) := by
  have hs : eval L resultValue condition (mkEnv resultValue) true
      = (false, some (.plain ("expected bool, but got " ++ L.typeName output))) := by
    rw [eval_eq_evalOutput, hS]
    simp only [hb]
  rw [EvalCondition_of_strict_error L resultValue condition false _ hs]
  by_cases hm : mismatchedTypesWithNil ("expected bool, but got " ++ L.typeName output) = true
  · have hl : eval L resultValue condition (mkEnv resultValue) false
        = (false, some (.plain ("expected bool, but got " ++ L.typeName output))) := by
      rw [eval_eq_evalOutput, hL hm]
      simp only [hb]
    simp [GoError.Error, hm, hl]
  · simp [GoError.Error, hm]

/-- Witness of C11 on the expression model: the case of `TestErrorWithNonBoolReturn`,
the expression `1` produces an `int`. -/
theorem EvalCondition_non_bool_witness :
    (EvalCondition (exprModel panickingHelpers) (Value.bool true) "1").1
      = (false, some (.plain "expected bool, but got int")) :=
  EvalCondition_non_bool (exprModel panickingHelpers) (Value.bool true) "1" (Value.int 1)
    rfl rfl (fun _ => rfl)

/-- C12: whenever `EvalCondition` returns an error, the boolean it returns is false. -/
theorem EvalCondition_error_false {V : Type} (L : ExprLib V) (resultValue : V)
    (condition : String) (output : Bool) (err : GoError)
    (h : (EvalCondition L resultValue condition).1 = (output, some err)) :
    output = false := by
  rcases hs : eval L resultValue condition (mkEnv resultValue) true with ⟨b, e⟩
  cases e with
  | none =>
    rw [EvalCondition_of_strict_ok L resultValue condition b hs] at h
    simp at h
  | some e =>
    rw [EvalCondition_of_strict_error L resultValue condition b e hs] at h
    by_cases hm : mismatchedTypesWithNil e.Error = true
    · simp only [hm, Bool.not_true, Bool.false_eq_true, ↓reduceIte] at h
      exact eval_error_false L resultValue condition (mkEnv resultValue) false output err h
    · simp [hm] at h
      exact h.1

/-- Witness of C12 on the expression model: the case of `TestEvaluateInvalidStruct`. -/
theorem EvalCondition_error_false_witness :
    (EvalCondition (exprModel panickingHelpers) (Value.bool true) "result.Name() == 'hi'").1
        = (false, some (.plain "type bool has no method Name"))
    ∧ false = false :=
  ⟨rfl, EvalCondition_error_false (exprModel panickingHelpers) (Value.bool true)
    "result.Name() == 'hi'" false (.plain "type bool has no method Name") rfl⟩

end Evaluate

namespace RolloutUtil

/-- Without a terminal-failure condition the first rule of the ladder does not apply. -/
theorem terminalCondition_eq_none (isTerminalReason : String → Bool) (ro : Rollout)
    (h : ∀ c ∈ ro.Conditions, isTerminalReason c.Reason = false) :
    terminalCondition isTerminalReason ro = none := by
  unfold terminalCondition
  rw [List.find?_eq_none]
  intro c hc
  simp [h c hc]

/-- C16: a rollout whose condition list contains a condition with a terminal-failure
reason is Degraded, and the message is `<reason>: <message>` of such a condition
of the list (the first one). -/
theorem GetRolloutPhase_degraded (isTerminalReason : String → Bool) (defaultReplicas : Int)
    (ro : Rollout) (h : ∃ c ∈ ro.Conditions, isTerminalReason c.Reason = true) :
    ∃ c ∈ ro.Conditions, isTerminalReason c.Reason = true
      ∧ terminalCondition isTerminalReason ro = some c
      ∧ GetRolloutPhase isTerminalReason defaultReplicas ro
          = (.Degraded, c.Reason ++ ": " ++ c.Message) := by
  rcases hf : terminalCondition isTerminalReason ro with _ | c
  · obtain ⟨c, hc, ht⟩ := h
    unfold terminalCondition at hf
    rw [List.find?_eq_none] at hf
    exact absurd ht (by simpa using hf c hc)
  · refine ⟨c, ?_, ?_, rfl, ?_⟩
    · exact List.mem_of_find?_eq_some hf
    · simpa using List.find?_some hf
    · simp [GetRolloutPhase, hf]

/-- Witness of C16: the rollout of `TestRolloutStatusDegraded`. -/
theorem GetRolloutPhase_degraded_witness :
    ∃ c ∈ degradedRollout.Conditions, testTerminalReasons c.Reason = true
      ∧ terminalCondition testTerminalReasons degradedRollout = some c
      ∧ GetRolloutPhase testTerminalReasons 1 degradedRollout
          = (.Degraded, c.Reason ++ ": " ++ c.Message) :=
  GetRolloutPhase_degraded testTerminalReasons 1 degradedRollout
    ⟨⟨"Progressing", "ProgressDeadlineExceeded", "timed out"⟩, by decide, by decide⟩

/-- C17: a rollout with the paused flag set and no terminal-failure condition is
Paused with the message `manually paused`, whatever its replica counts and the
other fields the Progressing rules read. -/
theorem GetRolloutPhase_paused (isTerminalReason : String → Bool) (defaultReplicas : Int)
    (ro : Rollout) (hp : ro.Paused = true)
    (ht : ∀ c ∈ ro.Conditions, isTerminalReason c.Reason = false) :
    GetRolloutPhase isTerminalReason defaultReplicas ro = (.Paused, "manually paused") := by
  simp [GetRolloutPhase, terminalCondition_eq_none isTerminalReason ro ht, hp]

/-- Witness of C17: the rollout of `TestRolloutStatusPaused`, whose updated replicas
are fewer than the desired ones. -/
theorem GetRolloutPhase_paused_witness :
    pausedRollout.UpdatedReplicas < desiredReplicas 1 pausedRollout
    ∧ GetRolloutPhase testTerminalReasons 1 pausedRollout = (.Paused, "manually paused") :=
  ⟨by decide, GetRolloutPhase_paused testTerminalReasons 1 pausedRollout rfl (by decide)⟩

/-- C18, as stated, fails: `workloadNotObservedRollout` has no terminal-failure
condition, is not paused, has its updated, available and total replica counts equal
to the desired count, its current hash equal to its stable hash, its generation
observed and no restart pending; it is Progressing, waiting for the reference
workload to be observed, and not Healthy. -/
theorem GetRolloutPhase_healthy_counterexample :
    (∀ c ∈ workloadNotObservedRollout.Conditions, testTerminalReasons c.Reason = false)
    ∧ workloadNotObservedRollout.Paused = false
    ∧ workloadNotObservedRollout.UpdatedReplicas = desiredReplicas 1 workloadNotObservedRollout
    ∧ workloadNotObservedRollout.AvailableReplicas = desiredReplicas 1 workloadNotObservedRollout
    ∧ workloadNotObservedRollout.StatusReplicas = desiredReplicas 1 workloadNotObservedRollout
    ∧ workloadNotObservedRollout.CurrentPodHash = workloadNotObservedRollout.StableRS
    ∧ workloadNotObservedRollout.Strategy ≠ .BlueGreen
    ∧ isGenerationObserved workloadNotObservedRollout = true
    ∧ isRestartPending workloadNotObservedRollout = false
    ∧ GetRolloutPhase testTerminalReasons 1 workloadNotObservedRollout
        = (.Progressing,
           "waiting for rollout spec update to be observed for the reference workload")
    ∧ GetRolloutPhase testTerminalReasons 1 workloadNotObservedRollout ≠ (.Healthy, "") := by
  decide

/-- C18, amended: a rollout that has no terminal-failure condition, is not paused, has
updated, available and total replica counts equal to the desired count, has its
current hash equal to its stable hash (and, for blue-green, to the active
selector), has its generation observed, has the generation of its reference
workload observed if it resolves its template from one, and has no restart
pending, is Healthy with the empty message. -/
theorem GetRolloutPhase_healthy (isTerminalReason : String → Bool) (defaultReplicas : Int)
    (ro : Rollout)
    (ht : ∀ c ∈ ro.Conditions, isTerminalReason c.Reason = false)
    (hp : ro.Paused = false)
    (hu : ro.UpdatedReplicas = desiredReplicas defaultReplicas ro)
    (ha : ro.AvailableReplicas = desiredReplicas defaultReplicas ro)
    (hr : ro.StatusReplicas = desiredReplicas defaultReplicas ro)
    (hs : ro.CurrentPodHash = ro.StableRS)
    (_hb : ro.Strategy = .BlueGreen → ro.CurrentPodHash = ro.ActiveSelector)
    (hg : isGenerationObserved ro = true)
    (hw : ro.TemplateResolvedFromRef = true → isWorkloadGenerationObserved ro = true)
    (hn : isRestartPending ro = false) :
    GetRolloutPhase isTerminalReason defaultReplicas ro = (.Healthy, "") := by
  have hw2 : (ro.TemplateResolvedFromRef && !isWorkloadGenerationObserved ro) = false := by
    cases hT : ro.TemplateResolvedFromRef
    · rfl
    · simp [hw hT]
  simp only [GetRolloutPhase, terminalCondition_eq_none isTerminalReason ro ht, hp, hg, hw2,
    hu, ha, hr, hn]
  simp [hs]

/-- Witness of C18, amended: the first rollout of `TestRolloutStatusHealthy`. -/
theorem GetRolloutPhase_healthy_witness :
    GetRolloutPhase testTerminalReasons 1 healthyRollout = (.Healthy, "") :=
  GetRolloutPhase_healthy testTerminalReasons 1 healthyRollout (by decide) rfl rfl rfl rfl rfl
    (by decide) (by decide) (by decide) (by decide)

/-- C19, as stated, fails: the rollout of `TestRolloutStatusProgressing` whose observed
generation `1` is a decimal number smaller than its generation 2 has no
terminal-failure condition, is not paused and has fewer updated replicas than
desired; the phase is Progressing with the message of the generation check, as
the test expects, and not with `more replicas need to be updated`. -/
theorem GetRolloutPhase_more_replicas_counterexample :
    (∀ c ∈ generationNotObservedRollout.Conditions, testTerminalReasons c.Reason = false)
    ∧ generationNotObservedRollout.Paused = false
    ∧ generationNotObservedRollout.UpdatedReplicas
        < desiredReplicas 1 generationNotObservedRollout
    ∧ Strconv.Atoi generationNotObservedRollout.ObservedGeneration = .ok 1
    ∧ (1 : Int) < generationNotObservedRollout.Generation
    ∧ GetRolloutPhase testTerminalReasons 1 generationNotObservedRollout
        = (.Progressing, "waiting for rollout spec update to be observed")
    ∧ GetRolloutPhase testTerminalReasons 1 generationNotObservedRollout
        ≠ (.Progressing, "more replicas need to be updated") :=
  ⟨by decide, rfl, by decide, rfl, by decide, rfl, by decide⟩

/-- The generation of a rollout is observed exactly when its observed generation has
the shape of a legacy hash, is no decimal number, or is a decimal number that is
not smaller than the generation. -/
theorem isGenerationObserved_iff (ro : Rollout) :
    isGenerationObserved ro = true
      ↔ (isLegacyHash ro.ObservedGeneration = true
          ∨ ∀ n : Int, Strconv.Atoi ro.ObservedGeneration = .ok n → ro.Generation ≤ n) := by
  unfold isGenerationObserved
  cases hl : isLegacyHash ro.ObservedGeneration
  · rcases ha : Strconv.Atoi ro.ObservedGeneration with e | m
    · simp
    · simp
  · simp

/-- C19, amended: for a rollout that has no terminal-failure condition and is not
paused, the generation check is decided before the replica check.  If the
observed generation is a decimal number smaller than the generation and has not
the shape of a legacy hash (ten alphanumeric characters), the phase is
Progressing with the message `waiting for rollout spec update to be observed`,
whatever the replica counts are.  The phase is Progressing with the message
`more replicas need to be updated` exactly when `updatedReplicas <
desiredReplicas`, the observed generation is a legacy hash, no decimal number or
a decimal number not smaller than the generation, and the generation of the
reference workload is observed if the template is resolved from one. -/
theorem GetRolloutPhase_more_replicas (isTerminalReason : String → Bool)
    (defaultReplicas : Int) (ro : Rollout)
    (ht : ∀ c ∈ ro.Conditions, isTerminalReason c.Reason = false)
    (hp : ro.Paused = false) :
    (∀ n : Int, Strconv.Atoi ro.ObservedGeneration = .ok n → n < ro.Generation →
      isLegacyHash ro.ObservedGeneration = false →
      GetRolloutPhase isTerminalReason defaultReplicas ro
        = (.Progressing, "waiting for rollout spec update to be observed"))
    ∧ (GetRolloutPhase isTerminalReason defaultReplicas ro
          = (.Progressing, "more replicas need to be updated")
        ↔ ((isLegacyHash ro.ObservedGeneration = true
              ∨ ∀ n : Int, Strconv.Atoi ro.ObservedGeneration = .ok n → ro.Generation ≤ n)
            ∧ (ro.TemplateResolvedFromRef = true → isWorkloadGenerationObserved ro = true)
            ∧ ro.UpdatedReplicas < desiredReplicas defaultReplicas ro)) := by
  have hT := terminalCondition_eq_none isTerminalReason ro ht
  constructor
  · intro n ha hn hl
    have hg : isGenerationObserved ro = false := by
      rw [← Bool.not_eq_true, isGenerationObserved_iff]
      rintro (h | h)
      · rw [hl] at h; cases h
      · exact absurd (h n ha) (not_le.mpr hn)
    simp [GetRolloutPhase, hT, hp, hg]
  · rw [← isGenerationObserved_iff]
    cases hg : isGenerationObserved ro
    · simp [GetRolloutPhase, hT, hp, hg]
    · cases hr : ro.TemplateResolvedFromRef
      · by_cases hu : ro.UpdatedReplicas < desiredReplicas defaultReplicas ro
        · simp [GetRolloutPhase, hT, hp, hg, hr, hu]
        · simp only [GetRolloutPhase, hT, hp, hg, hr, hu]
          simp only [Bool.false_and, Bool.false_eq_true, if_false, if_true, Bool.not_true]
          split_ifs <;> simp [hu]
      · cases hw : isWorkloadGenerationObserved ro
        · simp [GetRolloutPhase, hT, hp, hg, hr, hw]
        · by_cases hu : ro.UpdatedReplicas < desiredReplicas defaultReplicas ro
          · simp [GetRolloutPhase, hT, hp, hg, hr, hw, hu]
          · simp only [GetRolloutPhase, hT, hp, hg, hr, hw, hu]
            simp only [Bool.not_true, Bool.and_false, Bool.false_eq_true, if_false, if_true]
            split_ifs <;> simp [hu]

/-- Witness of C19, amended: three rollouts of `TestRolloutStatusProgressing`, all with
fewer updated replicas than desired.  At lines 167 to 180 the observed generation
`1` is a decimal number smaller than the generation 2; at lines 97 to 106 it is
empty, which is no decimal number; at lines 196 to 209 it is `1366344857`, a
decimal number of the shape of a legacy hash. -/
theorem GetRolloutPhase_more_replicas_witness :
    (generationNotObservedRollout.UpdatedReplicas
        < desiredReplicas 1 generationNotObservedRollout
      ∧ GetRolloutPhase testTerminalReasons 1 generationNotObservedRollout
        = (.Progressing, "waiting for rollout spec update to be observed"))
    ∧ GetRolloutPhase testTerminalReasons 1 moreReplicasRollout
        = (.Progressing, "more replicas need to be updated")
    ∧ GetRolloutPhase testTerminalReasons 1 numericLegacyHashRollout
        = (.Progressing, "more replicas need to be updated") :=
  ⟨⟨by decide,
    (GetRolloutPhase_more_replicas testTerminalReasons 1 generationNotObservedRollout
      (by decide) rfl).1 1 rfl (by decide) rfl⟩,
   (GetRolloutPhase_more_replicas testTerminalReasons 1 moreReplicasRollout
      (by decide) rfl).2.mpr
      ⟨Or.inr (fun n h => by
          rw [show Strconv.Atoi moreReplicasRollout.ObservedGeneration = .error .invalid
            from rfl] at h
          cases h),
       by decide, by decide⟩,
   (GetRolloutPhase_more_replicas testTerminalReasons 1 numericLegacyHashRollout
      (by decide) rfl).2.mpr ⟨Or.inl rfl, by decide, by decide⟩⟩

/-- C20, as stated, fails.  The rollout of `TestRolloutStatusProgressing` at lines 117
to 126 meets the conditions of the claim, and the message is `old replicas are
pending termination`, as the test expects, not `old replicas pending
termination`.  A rollout that meets them and whose generation is not observed
gets the message of the generation check. -/
theorem GetRolloutPhase_old_replicas_counterexample :
    ((∀ c ∈ oldReplicasRollout.Conditions, testTerminalReasons c.Reason = false)
      ∧ oldReplicasRollout.Paused = false
      ∧ oldReplicasRollout.UpdatedReplicas ≥ desiredReplicas 1 oldReplicasRollout
      ∧ oldReplicasRollout.AvailableReplicas ≥ oldReplicasRollout.UpdatedReplicas
      ∧ oldReplicasRollout.StatusReplicas > desiredReplicas 1 oldReplicasRollout
      ∧ GetRolloutPhase testTerminalReasons 1 oldReplicasRollout
          = (.Progressing, "old replicas are pending termination")
      ∧ GetRolloutPhase testTerminalReasons 1 oldReplicasRollout
          ≠ (.Progressing, "old replicas pending termination"))
    ∧ ((∀ c ∈ oldReplicasNotObservedRollout.Conditions, testTerminalReasons c.Reason = false)
      ∧ oldReplicasNotObservedRollout.Paused = false
      ∧ oldReplicasNotObservedRollout.UpdatedReplicas
          ≥ desiredReplicas 1 oldReplicasNotObservedRollout
      ∧ oldReplicasNotObservedRollout.AvailableReplicas
          ≥ oldReplicasNotObservedRollout.UpdatedReplicas
      ∧ oldReplicasNotObservedRollout.StatusReplicas
          > desiredReplicas 1 oldReplicasNotObservedRollout
      ∧ GetRolloutPhase testTerminalReasons 1 oldReplicasNotObservedRollout
          = (.Progressing, "waiting for rollout spec update to be observed")) := by
  decide

/-- C20, amended: a rollout that has no terminal-failure condition, is not paused, has
its generation observed, as that of its reference workload if it resolves its
template from one, has `updatedReplicas >= desiredReplicas` and
`availableReplicas >= updatedReplicas`, and has `totalReplicas > desiredReplicas`,
is Progressing with the message `old replicas are pending termination`. -/
theorem GetRolloutPhase_old_replicas (isTerminalReason : String → Bool)
    (defaultReplicas : Int) (ro : Rollout)
    (ht : ∀ c ∈ ro.Conditions, isTerminalReason c.Reason = false)
    (hp : ro.Paused = false)
    (hg : isGenerationObserved ro = true)
    (hw : ro.TemplateResolvedFromRef = true → isWorkloadGenerationObserved ro = true)
    (hu : ro.UpdatedReplicas ≥ desiredReplicas defaultReplicas ro)
    (ha : ro.AvailableReplicas ≥ ro.UpdatedReplicas)
    (hr : ro.StatusReplicas > desiredReplicas defaultReplicas ro) :
    GetRolloutPhase isTerminalReason defaultReplicas ro
      = (.Progressing, "old replicas are pending termination") := by
  have hw2 : (ro.TemplateResolvedFromRef && !isWorkloadGenerationObserved ro) = false := by
    cases hT : ro.TemplateResolvedFromRef
    · rfl
    · simp [hw hT]
  simp only [GetRolloutPhase, terminalCondition_eq_none isTerminalReason ro ht, hp, hg, hw2]
  have h1 : ¬ ro.UpdatedReplicas < desiredReplicas defaultReplicas ro := not_lt.mpr hu
  have h2 : ¬ ro.AvailableReplicas < ro.UpdatedReplicas := not_lt.mpr ha
  simp [h1, h2, hr]

/-- Witness of C20, amended: the rollout of `TestRolloutStatusProgressing` at lines 117
to 126. -/
theorem GetRolloutPhase_old_replicas_witness :
    GetRolloutPhase testTerminalReasons 1 oldReplicasRollout
      = (.Progressing, "old replicas are pending termination") :=
  GetRolloutPhase_old_replicas testTerminalReasons 1 oldReplicasRollout (by decide) rfl
    (by decide) (by decide) (by decide) (by decide) (by decide)

end RolloutUtil

namespace Evaluate

/-- A run of characters that satisfy `p`, followed by a character that does not or by the end, is split off whole by `spanChars`. -/
theorem spanChars_all (p : Char → Bool) (l rest : List Char) (hl : l.all p = true)
    (hr : ∀ c cs, rest = c :: cs → p c = false) :
    spanChars p (l ++ rest) = (l, rest) := by
  induction l with
  | nil =>
    cases rest with
    | nil => rfl
    | cons c cs => simp [spanChars, hr c cs rfl]
  | cons a l ih =>
    simp only [List.all_cons, Bool.and_eq_true] at hl
    simp [spanChars, hl.1, ih hl.2]

/-- A character that starts an identifier also continues one. -/
theorem isIdentChar_of_isIdentStart (c : Char) (h : isIdentStart c = true) : isIdentChar c = true := by
  simp only [isIdentStart, isIdentChar, Char.isAlphanum, Bool.or_eq_true] at *
  rcases h with h | h
  · exact Or.inl (Or.inl h)
  · exact Or.inr h

/-- A character that starts an identifier is no white space. -/
theorem not_isWhitespace_of_isIdentStart (c : Char) (h : isIdentStart c = true) : c.isWhitespace = false := by
  by_contra hw
  simp only [Bool.not_eq_false] at hw
  simp only [Char.isWhitespace, Bool.or_eq_true, decide_eq_true_eq] at hw
  rcases hw with ((hw | hw) | hw) | hw <;> subst hw <;> exact absurd h (by decide)

/-- The lexer reads a word: one step at a character that starts an identifier. -/
theorem lexAux_word_span (fuel : Nat) (c : Char) (tl w rest : List Char) (acc : List Token)
    (hc : isIdentStart c = true)
    (hsp : spanChars isIdentChar (c :: tl) = (w, rest)) :
    lexAux (fuel + 1) (c :: tl) acc = lexAux fuel rest (wordToken (String.mk w) :: acc) := by
  simp only [lexAux, not_isWhitespace_of_isIdentStart c hc, hc]
  simp only [Bool.false_eq_true, ↓reduceIte, hsp]

/-- The lexer reads the word `c :: cs` when what follows does not continue it. -/
theorem lexAux_word (fuel : Nat) (c : Char) (cs rest : List Char) (acc : List Token)
    (hc : isIdentStart c = true) (hcs : cs.all isIdentChar = true)
    (hr : ∀ d ds, rest = d :: ds → isIdentChar d = false) :
    lexAux (fuel + 1) (c :: cs ++ rest) acc
      = lexAux fuel rest (wordToken (String.mk (c :: cs)) :: acc) := by
  have hsp : spanChars isIdentChar (c :: (cs ++ rest)) = (c :: cs, rest) := by
    have := spanChars_all isIdentChar (c :: cs) rest
      (by simp [isIdentChar_of_isIdentStart c hc, hcs]) hr
    simpa using this
  exact lexAux_word_span fuel c (cs ++ rest) (c :: cs) rest acc hc hsp

/-- The lexer on the text ` == true` after one token. -/
theorem lexAux_eq_true (n : Nat) (t : Token) :
    lexAux (n + 6) " == true".data [t]
      = .ok [t, .operator "==", .identifier "true"] := by
  rfl


/-- The token of a word that is no keyword is an identifier. -/
theorem wordToken_of_not_keyword (x : String) (h : isKeyword x = false) :
    wordToken x = .identifier x := by
  simp only [isKeyword, Bool.or_eq_false_iff, decide_eq_false_iff_not] at h
  simp [wordToken, h]

/-- The characters of an identifier. -/
theorem isIdentifier_data (x : String) (h : isIdentifier x = true) :
    ∃ c cs, x.data = c :: cs ∧ isIdentStart c = true ∧ cs.all isIdentChar = true
      ∧ isKeyword x = false := by
  unfold isIdentifier at h
  split at h
  · simp at h
  · next c cs hx =>
    simp only [Bool.and_eq_true, Bool.not_eq_true'] at h
    exact ⟨c, cs, hx, h.1.1, h.1.2, h.2⟩

/-- The lexer reads an identifier as one token. -/
theorem lex_identifier (x : String) (h : isIdentifier x = true) :
    lex x = .ok [.identifier x] := by
  obtain ⟨c, cs, hx, hc, hcs, hk⟩ := isIdentifier_data x h
  have hw := lexAux_word (cs.length + 1) c cs [] [] hc hcs (by simp)
  have hmk : String.mk (c :: cs) = x := by rw [← hx]
  simp only [List.append_nil] at hw
  unfold lex
  rw [hx]
  simp only [List.length_cons]
  rw [hw, hmk, wordToken_of_not_keyword x hk]
  rfl

/-- The tokens of `x == true` for an identifier `x`. -/
theorem lex_identifier_eq_true (x : String) (h : isIdentifier x = true) :
    lex (x ++ " == true") = .ok [.identifier x, .operator "==", .identifier "true"] := by
  obtain ⟨c, cs, hx, hc, hcs, hk⟩ := isIdentifier_data x h
  have hw := lexAux_word (cs.length + 9) c cs " == true".data [] hc hcs
    (by intro d ds hd; simp at hd; rw [← hd.1]; decide)
  have hmk : String.mk (c :: cs) = x := by rw [← hx]
  unfold lex
  rw [String.data_append, hx]
  have hlen : (c :: cs ++ " == true".data).length + 1 = (cs.length + 9) + 1 := by
    simp
  rw [hlen, hw, hmk, wordToken_of_not_keyword x hk]
  exact lexAux_eq_true (cs.length + 3) (.identifier x)


/-- An identifier is none of the literals `true`, `false` and `nil`. -/
theorem keyword_ne (x : String) (h : isKeyword x = false) :
    x ≠ "true" ∧ x ≠ "false" ∧ x ≠ "nil" := by
  simp only [isKeyword, Bool.or_eq_false_iff, decide_eq_false_iff_not] at h
  exact ⟨h.1.1.1.1.1.1.1.1.1.1, h.1.1.1.1.1.1.1.1.1.2, h.1.1.1.1.1.1.1.1.2⟩

/-- The parser reads an identifier as an identifier node. -/
theorem parse_identifier (x : String) (h : isIdentifier x = true) :
    ∃ t, parse x = .ok t ∧ t.Node = .ident x ∧ t.Source = x := by
  obtain ⟨c, cs, hx, hc, hcs, hk⟩ := isIdentifier_data x h
  obtain ⟨h1, h2, h3⟩ := keyword_ne x hk
  refine ⟨⟨.ident x, x⟩, ?_, rfl, rfl⟩
  unfold parse
  rw [lex_identifier x h]
  simp [parseExpression, parsePrimary, parsePostfix, parseBinary, parseConditional, h1, h2, h3]

/-- The parser reads `x == true` as a comparison of the identifier with `true`. -/
theorem parse_identifier_eq_true (x : String) (h : isIdentifier x = true) :
    ∃ t, parse (x ++ " == true") = .ok t
      ∧ t.Node = .binary .eq "==" (.ident x) (.boolLit true) := by
  obtain ⟨c, cs, hx, hc, hcs, hk⟩ := isIdentifier_data x h
  obtain ⟨h1, h2, h3⟩ := keyword_ne x hk
  refine ⟨⟨.binary .eq "==" (.ident x) (.boolLit true), x ++ " == true"⟩, ?_, rfl⟩
  unfold parse
  rw [lex_identifier_eq_true x h]
  simp [parseExpression, parsePrimary, parsePostfix, parseBinary, parseConditional,
    binaryOperator, BinOp.precedence, h1, h2, h3]


/-- A name other than the five keys is not in the environment of `EvalCondition`. -/
theorem lookup_mkEnv_none (v : Value) (x : String) (h1 : x ≠ "result") (h2 : x ≠ "asInt")
    (h3 : x ≠ "asFloat") (h4 : x ≠ "isNaN") (h5 : x ≠ "isInf") :
    (mkEnv v).lookup x = none := by
  have e1 : (x == "result") = false := by simpa using h1
  have e2 : (x == "asInt") = false := by simpa using h2
  have e3 : (x == "asFloat") = false := by simpa using h3
  have e4 : (x == "isNaN") = false := by simpa using h4
  have e5 : (x == "isInf") = false := by simpa using h5
  simp only [mkEnv, List.lookup, e1, e2, e3, e4, e5]

/-- A text matched by `.*<nil>` contains the character `<`. -/
theorem mem_of_matchDotStarNil (l : List Char) (h : matchDotStarNil l = true) :
    Char.ofNat 60 ∈ l := by
  induction l with
  | nil => simp [matchDotStarNil] at h
  | cons c cs ih =>
    simp only [matchDotStarNil, Bool.or_eq_true, Bool.and_eq_true] at h
    rcases h with h | h
    · have : c = Char.ofNat 60 := by
        simp only [startsWithChars, Bool.and_eq_true, beq_iff_eq] at h
        rw [← h.1]
      simp [this]
    · exact List.mem_cons_of_mem _ (ih h.2)

/-- What `dropChars` leaves is part of the text. -/
theorem mem_of_dropChars (p s rest : List Char) (h : dropChars p s = some rest) (a : Char)
    (ha : a ∈ rest) : a ∈ s := by
  induction p generalizing s with
  | nil =>
    simp only [dropChars, Option.some.injEq] at h
    rw [h]; exact ha
  | cons q qs ih =>
    cases s with
    | nil => simp [dropChars] at h
    | cons c cs =>
      simp only [dropChars] at h
      split at h
      · exact List.mem_cons_of_mem _ (ih cs h)
      · simp at h

/-- A text without the character `<` is not matched by the regular expression. -/
theorem matchAnywhere_false (l : List Char) (h : Char.ofNat 60 ∉ l) : matchAnywhere l = false := by
  induction l with
  | nil => rfl
  | cons c cs ih =>
    have hcs : Char.ofNat 60 ∉ cs := fun hm => h (List.mem_cons_of_mem _ hm)
    simp only [matchAnywhere, ih hcs, Bool.or_false]
    unfold matchHere
    split
    · next rest hd =>
      by_contra hm
      simp only [Bool.not_eq_false] at hm
      exact h (mem_of_dropChars _ _ rest hd _ (mem_of_matchDotStarNil rest hm))
    · rfl

/-- The message `unknown name x` of an identifier `x` is not matched by the regular expression. -/
theorem unknown_name_no_match (x : String) (h : isIdentifier x = true) :
    mismatchedTypesWithNil ("unknown name " ++ x) = false := by
  obtain ⟨c, cs, hx, hc, hcs, hk⟩ := isIdentifier_data x h
  unfold mismatchedTypesWithNil
  apply matchAnywhere_false
  rw [String.data_append, hx]
  intro hm
  rw [List.mem_append] at hm
  rcases hm with hm | hm
  · revert hm; decide
  · rw [List.mem_cons] at hm
    rcases hm with hm | hm
    · rw [← hm] at hc; revert hc; decide
    · have := (List.all_eq_true.mp hcs) _ hm
      revert this; decide

/-- C13: on the expression model, for every result value and every identifier `x` other
than `result`, `asInt`, `asFloat`, `isNaN` and `isInf`, `EvalCondition` on the
expression `x` and on the expression `x == true` returns false with the error
`unknown name x`; the error is the one of the strict pass and the lax pass is not
run. -/
theorem EvalCondition_unknown_name (helpers : Helper → List Value → Except String Value)
    (resultValue : Value) (x : String) (hx : isIdentifier x = true)
    (h1 : x ≠ "result") (h2 : x ≠ "asInt") (h3 : x ≠ "asFloat") (h4 : x ≠ "isNaN")
    (h5 : x ≠ "isInf") :
    EvalCondition (exprModel helpers) resultValue x
        = ((false, some (.plain ("unknown name " ++ x))), [⟨x, true⟩])
    ∧ EvalCondition (exprModel helpers) resultValue (x ++ " == true")
        = ((false, some (.plain ("unknown name " ++ x))), [⟨x ++ " == true", true⟩]) := by
  have hl := lookup_mkEnv_none resultValue x h1 h2 h3 h4 h5
  have hm := unknown_name_no_match x hx
  constructor
  · obtain ⟨t, ht, hn, _⟩ := parse_identifier x hx
    have he : eval (exprModel helpers) resultValue x (mkEnv resultValue) true
        = (false, some (.plain ("unknown name " ++ x))) := by
      simp [eval, exprModel, ht, check, hn, typeOf, hl, libError, unwrapFileErr]
    exact EvalCondition_other_error (exprModel helpers) resultValue x false _ he hm
  · obtain ⟨t, ht, hn⟩ := parse_identifier_eq_true x hx
    have he : eval (exprModel helpers) resultValue (x ++ " == true") (mkEnv resultValue) true
        = (false, some (.plain ("unknown name " ++ x))) := by
      simp [eval, exprModel, ht, check, hn, typeOf, hl, libError, unwrapFileErr]
    exact EvalCondition_other_error (exprModel helpers) resultValue (x ++ " == true") false _
      he hm

/-- Witness of C13 on the expression model: the names of `TestErrorWithInvalidReference`
and `TestErrorWithInvalidReference2`. -/
theorem EvalCondition_unknown_name_witness :
    EvalCondition (exprModel panickingHelpers) (Value.bool true) "invalidVariable"
        = ((false, some (.plain "unknown name invalidVariable")), [⟨"invalidVariable", true⟩])
    ∧ EvalCondition (exprModel panickingHelpers) (Value.bool true) "invalidVariable == true"
        = ((false, some (.plain "unknown name invalidVariable")),
           [⟨"invalidVariable == true", true⟩]) :=
  EvalCondition_unknown_name panickingHelpers (Value.bool true) "invalidVariable"
    (by decide) (by decide) (by decide) (by decide) (by decide) (by decide)

end Evaluate

namespace Evaluate
open Strconv

/-- The number denoted by a digit followed by further digits. -/
theorem decimalValue_cons (c : Char) (cs : List Char) :
    decimalValue (c :: cs) = (c.toNat - 48) * 10 ^ cs.length + decimalValue cs := by
  simp [decimalValue, Nat.ofDigits_append, Nat.ofDigits_singleton]
  ring

/-- The loop `parseDigits` succeeds exactly on decimal digits that denote a number up to
`maxVal`, with that number. -/
theorem parseDigits_eq_ok (maxVal : Nat) (l : List Char) (acc v : Nat) (ha : acc ≤ maxVal) :
    parseDigits maxVal acc l = .ok v ↔
      (∀ c ∈ l, c.isDigit = true) ∧ v = acc * 10 ^ l.length + decimalValue l ∧ v ≤ maxVal := by
  induction l generalizing acc with
  | nil =>
    have : decimalValue [] = 0 := by simp [decimalValue]
    simp only [parseDigits, Except.ok.injEq, List.not_mem_nil, false_implies, implies_true,
      List.length_nil, pow_zero, mul_one, true_and, this, add_zero]
    constructor
    · intro h; subst h; exact ⟨rfl, ha⟩
    · intro h; exact h.1.symm
  | cons c cs ih =>
    simp only [parseDigits]
    by_cases hc : c.isDigit = true
    · simp only [hc, ↓reduceIte, List.mem_cons, forall_eq_or_imp, true_and,
        List.length_cons, decimalValue_cons]
      have hpow : 1 ≤ 10 ^ cs.length := Nat.one_le_pow _ _ (by norm_num)
      have hexp : acc * 10 ^ (cs.length + 1) + ((c.toNat - 48) * 10 ^ cs.length + decimalValue cs)
          = (acc * 10 + (c.toNat - 48)) * 10 ^ cs.length + decimalValue cs := by ring
      by_cases hr : acc * 10 + (c.toNat - 48) > maxVal
      · simp only [hr, ↓reduceIte, reduceCtorEq, false_iff, not_and]
        intro _ hv
        rw [hexp] at hv
        have : acc * 10 + (c.toNat - 48)
            ≤ (acc * 10 + (c.toNat - 48)) * 10 ^ cs.length := Nat.le_mul_of_pos_right _ hpow
        omega
      · simp only [hr, ↓reduceIte, ih _ (not_lt.mp hr), hexp]
    · simp [hc]

/-- A decimal digit is neither `+` nor `-`. -/
theorem isDigit_ne_sign (c : Char) (h : c.isDigit = true) :
    c ≠ Char.ofNat 43 ∧ c ≠ Char.ofNat 45 := by
  constructor <;> (intro hc; subst hc; exact absurd h (by decide))


/-- The function `ParseInt` on a text split into its sign and its digits. -/
theorem ParseInt_of_sign_digits (s : String) (sign digits : List Char)
    (hs : s.data = sign ++ digits)
    (hsign : sign = [] ∨ sign = [Char.ofNat 43] ∨ sign = [Char.ofNat 45])
    (hne : digits ≠ [])
    (hfirst : sign = [] → ∀ d ds, digits = d :: ds → d ≠ Char.ofNat 43 ∧ d ≠ Char.ofNat 45) :
    ParseInt s 64 =
      match parseDigits (2 ^ 64 - 1) 0 digits with
      | .error e => .error e
      | .ok un =>
        if !(decide (sign = [Char.ofNat 45])) && un ≥ 2 ^ 63 then .error .range
        else if decide (sign = [Char.ofNat 45]) && un > 2 ^ 63 then .error .range
        else .ok (if sign = [Char.ofNat 45] then -(un : Int) else (un : Int)) := by
  obtain ⟨d, ds, hd⟩ : ∃ d ds, digits = d :: ds := by
    cases digits with
    | nil => exact absurd rfl hne
    | cons d ds => exact ⟨d, ds, rfl⟩
  unfold ParseInt
  rcases hsign with h | h | h
  · subst h
    obtain ⟨h1, h2⟩ := hfirst rfl d ds hd
    have e1 : (d == Char.ofNat 43) = false := by simpa using h1
    have e2 : (d == Char.ofNat 45) = false := by simpa using h2
    simp only [List.nil_append] at hs
    rw [hs, hd]
    simp only [e1, e2, Bool.or_self, Bool.false_eq_true, ↓reduceIte]
    cases parseDigits (2 ^ 64 - 1) 0 (d :: ds) <;> simp
  · subst h
    rw [hs, hd]
    simp only [List.singleton_append]
    have e1 : (Char.ofNat 43 == Char.ofNat 43) = true := by decide
    have e2 : (Char.ofNat 43 == Char.ofNat 45) = false := by decide
    simp only [e1, e2, Bool.true_or, ↓reduceIte]
    cases parseDigits (2 ^ 64 - 1) 0 (d :: ds) <;> simp
  · subst h
    rw [hs, hd]
    simp only [List.singleton_append]
    have e1 : (Char.ofNat 45 == Char.ofNat 43) = false := by decide
    have e2 : (Char.ofNat 45 == Char.ofNat 45) = true := by decide
    simp only [e1, e2, Bool.or_true, ↓reduceIte]
    cases parseDigits (2 ^ 64 - 1) 0 (d :: ds) <;> simp


/-- The function `ParseInt` returns the value of every valid literal. -/
theorem ParseInt_ok_of_literal (s : String) (n : Int) (h : IsInt64Literal s n) :
    ParseInt s 64 = .ok n := by
  obtain ⟨sign, digits, hs, hsign, hne, hd, hn, hlo, hhi⟩ := h
  rw [ParseInt_of_sign_digits s sign digits hs hsign hne
    (fun _ d ds hdd => isDigit_ne_sign d (hd d (by rw [hdd]; exact List.mem_cons_self _ _)))]
  have hp : parseDigits (2 ^ 64 - 1) 0 digits = .ok (decimalValue digits) := by
    rw [parseDigits_eq_ok _ _ _ _ (Nat.zero_le _)]
    refine ⟨hd, by simp, ?_⟩
    split at hn <;> omega
  rw [hp]
  simp only
  by_cases hm : sign = [Char.ofNat 45]
  · simp only [hm, ↓reduceIte, decide_True, Bool.not_true, Bool.false_and, Bool.false_eq_true,
      Bool.true_and, decide_eq_true_eq] at hn ⊢
    have : ¬ decimalValue digits > 2 ^ 63 := by omega
    simp only [hn, ite_eq_right_iff, reduceCtorEq, imp_false, not_lt]
    omega
  · simp only [hm, ↓reduceIte, decide_False, Bool.not_false, Bool.true_and, Bool.false_and,
      Bool.false_eq_true, decide_eq_true_eq] at hn ⊢
    have : ¬ decimalValue digits ≥ 2 ^ 63 := by omega
    simp only [hn, ite_eq_right_iff, reduceCtorEq, imp_false, not_le]
    omega

/-- Whatever `ParseInt` returns without error is the value of a valid literal. -/
theorem literal_of_ParseInt_ok (s : String) (n : Int) (h : ParseInt s 64 = .ok n) :
    IsInt64Literal s n := by
  rcases hd : s.data with _ | ⟨c, cs⟩
  · simp [ParseInt, hd] at h
  · -- the sign and the digits
    obtain ⟨sign, digits, hs, hsign, hfirst⟩ : ∃ sign digits, s.data = sign ++ digits
        ∧ (sign = [] ∨ sign = [Char.ofNat 43] ∨ sign = [Char.ofNat 45])
        ∧ (sign = [] → ∀ d ds, digits = d :: ds → d ≠ Char.ofNat 43 ∧ d ≠ Char.ofNat 45) := by
      by_cases h1 : c = Char.ofNat 43
      · exact ⟨[Char.ofNat 43], cs, by rw [hd, h1]; rfl, Or.inr (Or.inl rfl), by simp⟩
      · by_cases h2 : c = Char.ofNat 45
        · exact ⟨[Char.ofNat 45], cs, by rw [hd, h2]; rfl, Or.inr (Or.inr rfl), by simp⟩
        · refine ⟨[], c :: cs, by rw [hd]; rfl, Or.inl rfl, ?_⟩
          intro _ d ds hdd
          simp only [List.cons.injEq] at hdd
          rw [← hdd.1]
          exact ⟨h1, h2⟩
    have hne : digits ≠ [] := by
      intro he
      subst he
      rcases hsign with h0 | h0 | h0 <;> subst h0
      · simp [hd] at hs
      · simp only [List.append_nil] at hs
        have : ParseInt s 64 = .error .invalid := by
          unfold ParseInt; rw [hs]; rfl
        rw [this] at h; cases h
      · simp only [List.append_nil] at hs
        have : ParseInt s 64 = .error .invalid := by
          unfold ParseInt; rw [hs]; rfl
        rw [this] at h; cases h
    rw [ParseInt_of_sign_digits s sign digits hs hsign hne hfirst] at h
    rcases hp : parseDigits (2 ^ 64 - 1) 0 digits with _ | un
    · rw [hp] at h; cases h
    · rw [hp] at h
      simp only at h
      obtain ⟨hall, hun, _⟩ := (parseDigits_eq_ok _ digits 0 un (Nat.zero_le _)).mp hp
      simp only [zero_mul, zero_add] at hun
      refine ⟨sign, digits, hs, hsign, hne, hall, ?_⟩
      by_cases hm : sign = [Char.ofNat 45]
      · simp only [hm, decide_True, Bool.not_true, Bool.false_and, Bool.false_eq_true,
          ↓reduceIte, Bool.true_and, decide_eq_true_eq] at h ⊢
        split at h
        · cases h
        · next hr =>
          simp only [Except.ok.injEq] at h
          subst hun
          refine ⟨h.symm, ?_, ?_⟩ <;> omega
      · simp only [hm, decide_False, Bool.not_false, Bool.true_and, decide_eq_true_eq,
          Bool.false_and, Bool.false_eq_true, ↓reduceIte] at h ⊢
        split at h
        · cases h
        · next hr =>
          simp only [Except.ok.injEq] at h
          subst hun
          refine ⟨h.symm, ?_, ?_⟩ <;> omega


/-- C14: for every string `s`, `asInt(s)` returns `n` when `s` is a valid base-10 signed
64-bit integer literal with the value `n`, and otherwise panics with the error of
`ParseInt`; `asFloat(s)` returns the float that `ParseFloat` parses and otherwise
panics with the error of `ParseFloat`.  A panic returns no value, so neither
function returns zero or a default for a string that does not parse. -/
theorem asInt_asFloat_string (rt : GoRuntime) (s : String) :
    (∀ n, IsInt64Literal s n → asInt rt (.string s) = .ok n)
    ∧ ((¬ ∃ n, IsInt64Literal s n) →
        ∃ e, ParseInt s 64 = .error e
          ∧ asInt rt (.string s) = .error (numErrorText rt.quote "ParseInt" s e))
    ∧ (∀ x, rt.parseFloat s = .ok x → asFloat rt (.string s) = .ok x)
    ∧ (∀ e, rt.parseFloat s = .error e →
        asFloat rt (.string s) = .error (numErrorText rt.quote "ParseFloat" s e)) := by
  refine ⟨?_, ?_, ?_, ?_⟩
  · intro n hn
    simp [asInt, ParseInt_ok_of_literal s n hn]
  · intro hno
    rcases hp : ParseInt s 64 with e | n
    · exact ⟨e, rfl, by simp [asInt, hp]⟩
    · exact absurd ⟨n, literal_of_ParseInt_ok s n hp⟩ hno
  · intro x hx
    simp [asFloat, hx]
  · intro e he
    simp [asFloat, he]

/-- Witness of C14: the strings of `TestAsInt` and `TestAsFloat`; `asInt` returns 1 on `1`
and panics on `1.1` and on `notint`, `asFloat` returns 1.1 on `1.1` and panics on
`notfloat`. -/
theorem asInt_asFloat_string_witness :
    asInt testRuntime (.string "1") = .ok 1
    ∧ (∃ e, ParseInt "1.1" 64 = .error e
        ∧ asInt testRuntime (.string "1.1")
            = .error (numErrorText testRuntime.quote "ParseInt" "1.1" e))
    ∧ (∃ e, ParseInt "notint" 64 = .error e
        ∧ asInt testRuntime (.string "notint")
            = .error (numErrorText testRuntime.quote "ParseInt" "notint" e))
    ∧ asFloat testRuntime (.string "1.1") = .ok 1.1
    ∧ asFloat testRuntime (.string "notfloat")
        = .error (numErrorText testRuntime.quote "ParseFloat" "notfloat" .invalid) :=
  ⟨(asInt_asFloat_string testRuntime "1").1 1
      ⟨[], [Char.ofNat 49], rfl, Or.inl rfl, by decide, by decide, by decide, by decide,
        by decide⟩,
   (asInt_asFloat_string testRuntime "1.1").2.1
      (fun ⟨n, hn⟩ => by
        have h := ParseInt_ok_of_literal "1.1" n hn
        rw [show ParseInt "1.1" 64 = .error .invalid from rfl] at h
        cases h),
   (asInt_asFloat_string testRuntime "notint").2.1
      (fun ⟨n, hn⟩ => by
        have h := ParseInt_ok_of_literal "notint" n hn
        rw [show ParseInt "notint" 64 = .error .invalid from rfl] at h
        cases h),
   (asInt_asFloat_string testRuntime "1.1").2.2.1 1.1 rfl,
   (asInt_asFloat_string testRuntime "notfloat").2.2.2 .invalid rfl⟩


/-- A call of a helper that the run performs and that panics ends the run with the
message of the panic. -/
theorem evalNode_of_failed_call (helpers : Helper → List Value → Except String Value)
    (env : Env Value) (h : Helper) (vs : List Value) (msg : String)
    (hf : helpers h vs = .error msg) (n : Node)
    (hc : (h, vs) ∈ helperCalls helpers env n) :
    evalNode helpers env n = .error msg := by
  induction n with
  | unary op text n ih =>
    simp only [helperCalls] at hc
    simp [evalNode, ih hc]
  | binary op text l r ihl ihr =>
    cases op
    all_goals
      simp only [helperCalls, List.mem_append] at hc
      rcases hc with hc | hc
      · simp [evalNode, ihl hc]
      · split at hc
        · next heq => simp [evalNode, heq, ihr hc]
        · simp at hc
  | member n property ih =>
    simp only [helperCalls] at hc
    simp [evalNode, ih hc]
  | index n i ihn ihi =>
    simp only [helperCalls, List.mem_append] at hc
    rcases hc with hc | hc
    · simp [evalNode, ihn hc]
    · split at hc
      · next heq => simp [evalNode, heq, ihi hc]
      · simp at hc
  | method n name args ih _ =>
    simp only [helperCalls] at hc
    simp [evalNode, ih hc]
  | call name args ih =>
    simp only [helperCalls, List.mem_append] at hc
    rcases hc with hc | hc
    · simp [evalNode, ih hc]
    · split at hc
      · simp at hc
      · next ws heq =>
        split at hc
        · next h2 hl =>
          simp only [List.mem_singleton, Prod.mk.injEq] at hc
          obtain ⟨rfl, rfl⟩ := hc
          simp [evalNode, heq, hl, hf]
        · simp at hc
  | argsCons hd tl ihh iht =>
    simp only [helperCalls, List.mem_append] at hc
    rcases hc with hc | hc
    · simp [evalNode, ihh hc]
    · split at hc
      · next heq => simp [evalNode, heq, iht hc]
      · simp at hc
  | cond c a b ihc iha ihb =>
    simp only [helperCalls, List.mem_append] at hc
    rcases hc with hc | hc
    · simp [evalNode, ihc hc]
    · split at hc
      · next heq => simp [evalNode, heq, iha hc]
      · next heq => simp [evalNode, heq, ihb hc]
      · simp at hc
  | _ => simp [helperCalls] at hc

/-- An expression that parses, that the checker accepts or rejects with a message
matching the regular expression, and whose run fails with a message, makes
`EvalCondition` return false with the message of the run. -/
theorem EvalCondition_of_run_error (helpers : Helper → List Value → Except String Value)
    (resultValue : Value) (condition : String) (t : Tree) (msg : String)
    (hp : parse condition = .ok t)
    (ht : (∃ ty, typeOf (mkEnv resultValue) true t.Node = .ok ty)
      ∨ (∃ m, typeOf (mkEnv resultValue) true t.Node = .error m
          ∧ mismatchedTypesWithNil m = true))
    (hr : evalNode helpers (mkEnv resultValue) t.Node = .error msg) :
    (EvalCondition (exprModel helpers) resultValue condition).1
      = (false, some (.plain msg)) := by
  have hl : eval (exprModel helpers) resultValue condition (mkEnv resultValue) false
      = (false, some (.plain msg)) := by
    simp [eval, exprModel, hp, run, hr, libError, unwrapFileErr]
  rcases ht with ⟨ty, ht⟩ | ⟨m, ht, hm⟩
  · have hs : eval (exprModel helpers) resultValue condition (mkEnv resultValue) true
        = (false, some (.plain msg)) := by
      simp [eval, exprModel, hp, check, ht, run, hr, libError, unwrapFileErr]
    rw [EvalCondition_of_strict_error _ resultValue condition false _ hs]
    by_cases hm : mismatchedTypesWithNil (GoError.plain msg).Error = true
    · simp [hm, hl]
    · simp [hm]
  · have hs : eval (exprModel helpers) resultValue condition (mkEnv resultValue) true
        = (false, some (.plain m)) := by
      simp [eval, exprModel, hp, check, ht, libError, unwrapFileErr]
    rw [EvalCondition_of_strict_error _ resultValue condition false _ hs]
    simp [GoError.Error, hm, hl]

/-- C15, amended: on the expression model with the helpers of `evaluate.go`, for every
string result `s` and every expression that parses and that the strict checker
accepts, or rejects with a message matching `mismatched types.*<nil>` so that the
lax pass runs it: if `s` is no valid base-10 64-bit integer literal and the run
performs a call of `asInt` on the result, `EvalCondition` returns false with the
error `strconv.ParseInt: parsing <s>: <e>`, `e` being the failure of `ParseInt` on
`s`; the panic of the helper is returned as an error and no boolean verdict is
given.  The same holds for a call of `asFloat` on a result that `ParseFloat`
rejects.  The call may stand anywhere in the expression, as long as the run
reaches it. -/
theorem EvalCondition_helper_panic (rt : GoRuntime) (s : String) (condition : String)
    (t : Tree)
    (hp : parse condition = .ok t)
    (ht : (∃ ty, typeOf (mkEnv (Value.string s)) true t.Node = .ok ty)
      ∨ (∃ m, typeOf (mkEnv (Value.string s)) true t.Node = .error m
          ∧ mismatchedTypesWithNil m = true)) :
    ((¬ ∃ n, IsInt64Literal s n) →
      (Helper.asInt, [Value.string s])
        ∈ helperCalls (goHelpers rt) (mkEnv (Value.string s)) t.Node →
      ∃ e, ParseInt s 64 = .error e
        ∧ (EvalCondition (exprModel (goHelpers rt)) (Value.string s) condition).1
            = (false, some (.plain (numErrorText rt.quote "ParseInt" s e))))
    ∧ (∀ e, rt.parseFloat s = .error e →
      (Helper.asFloat, [Value.string s])
        ∈ helperCalls (goHelpers rt) (mkEnv (Value.string s)) t.Node →
      (EvalCondition (exprModel (goHelpers rt)) (Value.string s) condition).1
        = (false, some (.plain (numErrorText rt.quote "ParseFloat" s e)))) := by
  constructor
  · intro hno hc
    rcases he : ParseInt s 64 with e | n
    · refine ⟨e, rfl, EvalCondition_of_run_error _ _ condition t _ hp ht
        (evalNode_of_failed_call _ _ _ _ _ ?_ _ hc)⟩
      simp [goHelpers, asInt, he]
    · exact absurd ⟨n, literal_of_ParseInt_ok s n he⟩ hno
  · intro e he hc
    refine EvalCondition_of_run_error _ _ condition t _ hp ht
      (evalNode_of_failed_call _ _ _ _ _ ?_ _ hc)
    simp [goHelpers, asFloat, he]

/-- The text `1.1` is no integer literal. -/
theorem not_literal_1_1 : ¬ ∃ n, IsInt64Literal "1.1" n :=
  fun ⟨n, hn⟩ => by
    have h := ParseInt_ok_of_literal "1.1" n hn
    rw [show ParseInt "1.1" 64 = .error .invalid from rfl] at h
    cases h

/-- C15, as stated, fails.  The result `1.1` is no valid integer, and both expressions
contain the call `asInt(result)`.  In `true || asInt(result) == 1` the run decides
`||` on its left operand and performs no call: `EvalCondition` returns
`(true, nil)`, a boolean verdict without an error.  In `asInt(result) == 'a'` the
strict checker rejects the comparison of `int64` with `string`: `EvalCondition`
returns false with the error of the checker, which does not carry the failure of
`ParseInt` (the second case of `TestEvaluateAsFloatError` is of this kind). -/
theorem EvalCondition_helper_panic_counterexample :
    (¬ ∃ n, IsInt64Literal "1.1" n)
    ∧ parse "true || asInt(result) == 1"
        = .ok ⟨.binary .or "||" (.boolLit true) (.binary .eq "==" asIntOfResult (.intLit 1)),
               "true || asInt(result) == 1"⟩
    ∧ helperCalls (goHelpers testRuntime) (mkEnv (Value.string "1.1"))
          (.binary .or "||" (.boolLit true) (.binary .eq "==" asIntOfResult (.intLit 1)))
        = []
    ∧ EvalCondition (exprModel (goHelpers testRuntime)) (Value.string "1.1")
          "true || asInt(result) == 1"
        = ((true, none), [⟨"true || asInt(result) == 1", true⟩])
    ∧ parse "asInt(result) == 'a'"
        = .ok ⟨.binary .eq "==" asIntOfResult (.strLit "a"), "asInt(result) == 'a'"⟩
    ∧ EvalCondition (exprModel (goHelpers testRuntime)) (Value.string "1.1")
          "asInt(result) == 'a'"
        = ((false, some (.plain "invalid operation: == (mismatched types int64 and string)")),
           [⟨"asInt(result) == 'a'", true⟩]) :=
  ⟨not_literal_1_1, rfl, rfl, rfl, rfl, rfl⟩

/-- Witness of C15, amended: the case of `TestEvaluateAsIntPanic` with the text of its
error, then the result `1.1` with the call as the right operand of `<`, behind
`&&` and in an expression that only the lax pass runs, and the first case of
`TestEvaluateAsFloatError`. -/
theorem EvalCondition_helper_panic_witness :
    (EvalCondition (exprModel (goHelpers testRuntime)) (Value.string "1.1")
        "asInt(result) == 1.1").1
      = (false, some (.plain ("strconv.ParseInt: parsing " ++ quoted "1.1" ++ ": invalid syntax")))
    ∧ (∃ e, ParseInt "1.1" 64 = .error e
      ∧ (EvalCondition (exprModel (goHelpers testRuntime)) (Value.string "1.1")
          "1 < asInt(result)").1
        = (false, some (.plain (numErrorText testRuntime.quote "ParseInt" "1.1" e))))
    ∧ (∃ e, ParseInt "1.1" 64 = .error e
      ∧ (EvalCondition (exprModel (goHelpers testRuntime)) (Value.string "1.1")
          "result != 'x' && asInt(result) > 5").1
        = (false, some (.plain (numErrorText testRuntime.quote "ParseInt" "1.1" e))))
    ∧ (∃ e, ParseInt "1.1" 64 = .error e
      ∧ (EvalCondition (exprModel (goHelpers testRuntime)) (Value.string "1.1")
          "asInt(result) > nil").1
        = (false, some (.plain (numErrorText testRuntime.quote "ParseInt" "1.1" e))))
    ∧ (EvalCondition (exprModel (goHelpers testRuntime)) (Value.string "NotANum")
        "asFloat(result) == 1.1").1
      = (false, some (.plain
          ("strconv.ParseFloat: parsing " ++ quoted "NotANum" ++ ": invalid syntax"))) :=
  ⟨rfl,
   (EvalCondition_helper_panic testRuntime "1.1" "1 < asInt(result)"
      ⟨.binary .lt "<" (.intLit 1) asIntOfResult, "1 < asInt(result)"⟩
      rfl (Or.inl ⟨.bool, rfl⟩)).1 not_literal_1_1
      (by simp [helperCalls, evalNode, asIntOfResult, mkEnv, List.lookup]),
   (EvalCondition_helper_panic testRuntime "1.1" "result != 'x' && asInt(result) > 5"
      ⟨.binary .and "&&" (.binary .ne "!=" (.ident "result") (.strLit "x"))
          (.binary .gt ">" asIntOfResult (.intLit 5)),
        "result != 'x' && asInt(result) > 5"⟩
      rfl (Or.inl ⟨.bool, rfl⟩)).1 not_literal_1_1
      (by simp [helperCalls, evalNode, asIntOfResult, mkEnv, List.lookup, valueEq,
            Value.toInt, Value.toFloat]),
   (EvalCondition_helper_panic testRuntime "1.1" "asInt(result) > nil"
      ⟨.binary .gt ">" asIntOfResult .nilLit, "asInt(result) > nil"⟩
      rfl (Or.inr ⟨"invalid operation: > (mismatched types int64 and <nil>)", rfl, rfl⟩)).1
      not_literal_1_1
      (by simp [helperCalls, evalNode, asIntOfResult, mkEnv, List.lookup]),
   (EvalCondition_helper_panic testRuntime "NotANum" "asFloat(result) == 1.1"
      ⟨.binary .eq "==" asFloatOfResult (.floatLit 11 1), "asFloat(result) == 1.1"⟩
      rfl (Or.inl ⟨.bool, rfl⟩)).2 .invalid rfl
      (by simp [helperCalls, evalNode, asFloatOfResult, mkEnv, List.lookup])⟩

end Evaluate

namespace RolloutUtil

/-- The message of a Degraded rollout holds a colon, the message of the generation check
does not. -/
theorem degraded_message_ne (reason message : String) :
    reason ++ ": " ++ message ≠ "waiting for rollout spec update to be observed" := by
  intro h
  have hd := congrArg String.data h
  simp only [String.data_append] at hd
  have hm : Char.ofNat 58 ∈ reason.data ++ ": ".data ++ message.data := by
    have : Char.ofNat 58 ∈ ": ".data := by decide
    simp [this]
  rw [hd] at hm
  revert hm
  decide

/-- A legacy hash, and a text that is no integer literal, count as an observed generation. -/
theorem isGenerationObserved_of_legacy (ro : Rollout)
    (h : isLegacyHash ro.ObservedGeneration = true
      ∨ ¬ ∃ n, Evaluate.IsInt64Literal ro.ObservedGeneration n) :
    isGenerationObserved ro = true := by
  unfold isGenerationObserved
  rcases h with h | h
  · simp [h]
  · split
    · rfl
    · split
      · rfl
      · next n hn =>
        exact absurd ⟨n, Evaluate.literal_of_ParseInt_ok _ n hn⟩ h

/-- C21: for every rollout whose observed-generation string is a legacy hash of ten
alphanumeric characters, digits only included, or is no decimal integer, the
generation counts as observed whatever the generation of the rollout is, and the
message of `GetRolloutPhase`, which is a total function, is not `waiting for
rollout spec update to be observed`. -/
theorem GetRolloutPhase_legacy_generation (isTerminalReason : String → Bool)
    (defaultReplicas : Int) (ro : Rollout)
    (h : isLegacyHash ro.ObservedGeneration = true
      ∨ ¬ ∃ n, Evaluate.IsInt64Literal ro.ObservedGeneration n) :
    isGenerationObserved ro = true
    ∧ (GetRolloutPhase isTerminalReason defaultReplicas ro).2
        ≠ "waiting for rollout spec update to be observed" := by
  have hg := isGenerationObserved_of_legacy ro h
  refine ⟨hg, ?_⟩
  unfold GetRolloutPhase
  split
  · exact degraded_message_ne _ _
  · simp only [hg, Bool.not_true, Bool.false_eq_true, ↓reduceIte]
    repeat' split
    all_goals decide

/-- Witness of C21: the rollouts of `TestRolloutStatusProgressing` at lines 181 to 209, with
the hashes `1366344857` and `7d66d4485f` and generation 2, and a rollout whose
observed generation is the text `not-a-number`. -/
theorem GetRolloutPhase_legacy_generation_witness :
    (isGenerationObserved numericLegacyHashRollout = true
      ∧ (GetRolloutPhase testTerminalReasons 1 numericLegacyHashRollout).2
          ≠ "waiting for rollout spec update to be observed")
    ∧ (isGenerationObserved legacyHashRollout = true
      ∧ (GetRolloutPhase testTerminalReasons 1 legacyHashRollout).2
          ≠ "waiting for rollout spec update to be observed")
    ∧ (isGenerationObserved malformedGenerationRollout = true
      ∧ (GetRolloutPhase testTerminalReasons 1 malformedGenerationRollout).2
          ≠ "waiting for rollout spec update to be observed")
    ∧ GetRolloutPhase testTerminalReasons 1 numericLegacyHashRollout
        = (.Progressing, "more replicas need to be updated")
    ∧ (1366344857 : Int) ≠ numericLegacyHashRollout.Generation :=
  ⟨GetRolloutPhase_legacy_generation testTerminalReasons 1 numericLegacyHashRollout
      (Or.inl (by decide)),
   GetRolloutPhase_legacy_generation testTerminalReasons 1 legacyHashRollout
      (Or.inl (by decide)),
   GetRolloutPhase_legacy_generation testTerminalReasons 1 malformedGenerationRollout
      (Or.inr (fun ⟨n, hn⟩ => by
        have h := Evaluate.ParseInt_ok_of_literal "not-a-number" n hn
        rw [show Strconv.ParseInt "not-a-number" 64 = .error .invalid from rfl] at h
        cases h)),
   by decide, by decide⟩


/-- The character of a decimal digit is a digit and stands for it. -/
theorem digitChar_spec (k : Nat) (h : k < 10) :
    (Nat.digitChar k).isDigit = true ∧ (Nat.digitChar k).toNat - 48 = k := by
  interval_cases k <;> decide

/-- The number denoted by digits followed by one more digit. -/
theorem decimalValue_append_singleton (l : List Char) (d : Char) :
    Evaluate.decimalValue (l ++ [d]) = Evaluate.decimalValue l * 10 + (d.toNat - 48) := by
  simp [Evaluate.decimalValue, Nat.ofDigits_cons]
  ring

/-- The loop of `Nat.toDigits` in base 10 writes decimal digits that denote the number. -/
theorem toDigitsCore_spec (fuel : Nat) :
    ∀ (n : Nat) (ds : List Char), n < fuel →
      ∃ l, Nat.toDigitsCore 10 fuel n ds = l ++ ds ∧ l ≠ []
        ∧ (∀ c ∈ l, c.isDigit = true) ∧ Evaluate.decimalValue l = n := by
  induction fuel with
  | zero => intro n ds h; omega
  | succ fuel ih =>
    intro n ds h
    obtain ⟨hd1, hd2⟩ := digitChar_spec (n % 10) (Nat.mod_lt _ (by decide))
    unfold Nat.toDigitsCore
    simp only
    by_cases h0 : n / 10 = 0
    · simp only [h0, ↓reduceIte]
      refine ⟨[Nat.digitChar (n % 10)], rfl, by simp, by simpa using hd1, ?_⟩
      have : Evaluate.decimalValue [Nat.digitChar (n % 10)] = (Nat.digitChar (n % 10)).toNat - 48 := by
        simp [Evaluate.decimalValue]
      rw [this, hd2]
      omega
    · simp only [h0, ↓reduceIte]
      obtain ⟨l, hl, _, hall, hv⟩ := ih (n / 10) (Nat.digitChar (n % 10) :: ds) (by omega)
      refine ⟨l ++ [Nat.digitChar (n % 10)], by rw [hl]; simp, by simp, ?_, ?_⟩
      · intro c hc
        rw [List.mem_append] at hc
        rcases hc with hc | hc
        · exact hall c hc
        · simp only [List.mem_singleton] at hc
          rw [hc]; exact hd1
      · rw [decimalValue_append_singleton, hv, hd2]
        omega

/-- The decimal digits of a number are not empty, are digits, and denote the number. -/
theorem toDigits_spec (n : Nat) :
    Nat.toDigits 10 n ≠ [] ∧ (∀ c ∈ Nat.toDigits 10 n, c.isDigit = true)
      ∧ Evaluate.decimalValue (Nat.toDigits 10 n) = n := by
  obtain ⟨l, hl, hne, hall, hv⟩ := toDigitsCore_spec (n + 1) n [] (by omega)
  simp only [List.append_nil] at hl
  unfold Nat.toDigits
  rw [hl]
  exact ⟨hne, hall, hv⟩

/-- A digit is one of the ten characters from `0` to `9`. -/
theorem isDigit_cases (c : Char) (h : c.isDigit = true) :
    c ∈ "0123456789".data := by
  have hb : 48 ≤ c.toNat ∧ c.toNat ≤ 57 := by
    simp only [Char.isDigit, Bool.and_eq_true, decide_eq_true_eq] at h
    exact ⟨h.1, h.2⟩
  have hc : c = Char.ofNat c.toNat := (Char.ofNat_toNat c).symm
  obtain ⟨h1, h2⟩ := hb
  generalize c.toNat = k at hc h1 h2
  subst hc
  interval_cases k <;> decide

/-- Two digits with the same character of the alphabet are the same digit. -/
theorem safeEncodeChar_inj (c d : Char) (hc : c.isDigit = true) (hd : d.isDigit = true)
    (h : safeEncodeChar c = safeEncodeChar d) : c = d := by
  have h1 := isDigit_cases c hc
  have h2 := isDigit_cases d hd
  simp only [show "0123456789".data = [Char.ofNat 48, Char.ofNat 49, Char.ofNat 50,
    Char.ofNat 51, Char.ofNat 52, Char.ofNat 53, Char.ofNat 54, Char.ofNat 55, Char.ofNat 56,
    Char.ofNat 57] from rfl, List.mem_cons, List.mem_singleton, List.not_mem_nil, or_false] at h1 h2
  rcases h1 with h1 | h1 | h1 | h1 | h1 | h1 | h1 | h1 | h1 | h1 <;>
  rcases h2 with h2 | h2 | h2 | h2 | h2 | h2 | h2 | h2 | h2 | h2 <;>
  subst h1 <;> subst h2 <;> first | rfl | (exact absurd h (by decide))

/-- Two runs of digits with the same characters of the alphabet are the same run. -/
theorem map_safeEncodeChar_inj (l1 : List Char) :
    ∀ l2 : List Char, (∀ c ∈ l1, c.isDigit = true) → (∀ c ∈ l2, c.isDigit = true) →
      l1.map safeEncodeChar = l2.map safeEncodeChar → l1 = l2 := by
  induction l1 with
  | nil =>
    intro l2 _ _ h
    cases l2 with
    | nil => rfl
    | cons d ds => simp at h
  | cons c cs ih =>
    intro l2 h1 h2 h
    cases l2 with
    | nil => simp at h
    | cons d ds =>
      simp only [List.map_cons, List.cons.injEq] at h
      have hcd := safeEncodeChar_inj c d (h1 c (List.mem_cons_self _ _))
        (h2 d (List.mem_cons_self _ _)) h.1
      have := ih ds (fun x hx => h1 x (List.mem_cons_of_mem _ hx))
        (fun x hx => h2 x (List.mem_cons_of_mem _ hx)) h.2
      rw [hcd, this]

/-- Two digests with the same token are equal. -/
theorem digestToken_inj (a b : Nat) (h : digestToken a = digestToken b) : a = b := by
  unfold digestToken at h
  have hl := map_safeEncodeChar_inj _ _ (toDigits_spec a).2.1 (toDigits_spec b).2.1
    (congrArg String.data h)
  rw [← (toDigits_spec a).2.2, ← (toDigits_spec b).2.2, hl]

/-- The token of a digest is not the empty text. -/
theorem digestToken_ne_empty (a : Nat) : digestToken a ≠ "" := by
  intro h
  unfold digestToken at h
  have := congrArg String.data h
  simp only [List.map_eq_nil_iff] at this
  exact (toDigits_spec a).1 this


/-- C22: for every rollout whose strategy is not canary, `ComputeStepHash` returns the
empty string. -/
theorem ComputeStepHash_not_canary (ro : Rollout)
    (h : ∀ steps, ro.Strategy ≠ .Canary steps) : ComputeStepHash ro = "" := by
  unfold ComputeStepHash
  split
  · rfl
  · next steps hs => exact absurd hs (h steps)

/-- Witness of C22: the blue-green rollout of `TestComputeStepHash`. -/
theorem ComputeStepHash_not_canary_witness :
    ComputeStepHash blueGreenNoStepsRollout = "" :=
  ComputeStepHash_not_canary blueGreenNoStepsRollout (fun _ h => nomatch h)

/-- C23: two canary rollouts with the same ordered step list have the same fingerprint,
whatever their other fields are: the fingerprint is the token of the digest of the
step list. -/
theorem ComputeStepHash_steps_only (ro1 ro2 : Rollout) (steps : List CanaryStep)
    (h1 : ro1.Strategy = .Canary steps) (h2 : ro2.Strategy = .Canary steps) :
    ComputeStepHash ro1 = ComputeStepHash ro2
    ∧ ComputeStepHash ro1 = digestToken (stepDigest steps) := by
  simp [ComputeStepHash, h1, h2]

/-- Witness of C23: the rollouts `ro` and `roWithSameSteps` of `TestComputeStepHash`, which
differ in pod hash and replica count and have the fingerprint `6b9b86fbd5`. -/
theorem ComputeStepHash_steps_only_witness :
    onePauseRollout.CurrentPodHash ≠ samePauseRollout.CurrentPodHash
    ∧ onePauseRollout.Replicas ≠ samePauseRollout.Replicas
    ∧ ComputeStepHash onePauseRollout = "6b9b86fbd5"
    ∧ ComputeStepHash onePauseRollout = ComputeStepHash samePauseRollout
    ∧ ComputeStepHash onePauseRollout = digestToken (stepDigest [.Pause none]) :=
  ⟨by decide, by decide, by decide,
   ComputeStepHash_steps_only onePauseRollout samePauseRollout [.Pause none] rfl rfl⟩

/-- C24, as stated, fails: two canary rollouts whose step lists, four steps that set the
weight, differ in the values of every step have the same fingerprint `d6c45b889`. -/
theorem ComputeStepHash_collision :
    weightSteps1 ≠ weightSteps2
    ∧ weightSteps1.length = weightSteps2.length
    ∧ ComputeStepHash { onePauseRollout with Strategy := .Canary weightSteps1 }
        = ComputeStepHash { onePauseRollout with Strategy := .Canary weightSteps2 }
    ∧ ComputeStepHash { onePauseRollout with Strategy := .Canary weightSteps1 } = "d6c45b889" :=
  ⟨by decide, rfl, rfl, rfl⟩

/-- C24, amended: two canary rollouts have different fingerprints if and only if the
32-bit digests of their step lists differ; the step lists of the test, one pause
step, two pause steps and no step, have pairwise different fingerprints. -/
theorem ComputeStepHash_ne_iff (ro1 ro2 : Rollout) (steps1 steps2 : List CanaryStep)
    (h1 : ro1.Strategy = .Canary steps1) (h2 : ro2.Strategy = .Canary steps2) :
    (ComputeStepHash ro1 ≠ ComputeStepHash ro2 ↔ stepDigest steps1 ≠ stepDigest steps2)
    ∧ ComputeStepHash onePauseRollout ≠ ComputeStepHash twoPausesRollout
    ∧ ComputeStepHash onePauseRollout ≠ ComputeStepHash noStepsRollout
    ∧ ComputeStepHash twoPausesRollout ≠ ComputeStepHash noStepsRollout := by
  refine ⟨?_, by decide, by decide, by decide⟩
  simp only [ComputeStepHash, h1, h2]
  constructor
  · intro h hd
    exact h (by rw [hd])
  · intro h ht
    exact h (digestToken_inj _ _ ht)

/-- Witness of C24, amended: one pause step and two pause steps. -/
theorem ComputeStepHash_ne_iff_witness :
    stepDigest [.Pause none] ≠ stepDigest [.Pause none, .Pause none]
    ∧ (ComputeStepHash onePauseRollout ≠ ComputeStepHash twoPausesRollout
        ↔ stepDigest [.Pause none] ≠ stepDigest [.Pause none, .Pause none]) :=
  ⟨by decide,
   (ComputeStepHash_ne_iff onePauseRollout twoPausesRollout [.Pause none]
      [.Pause none, .Pause none] rfl rfl).1⟩

/-- C25: `checkStepHashChange` is true if and only if the stored step hash differs from
`ComputeStepHash` of the rollout; it is true for a canary rollout whose stored hash
is empty, and false once the stored hash is set to `ComputeStepHash` of the rollout. -/
theorem checkStepHashChange_iff (ro : Rollout) :
    (checkStepHashChange ro = true ↔ ro.CurrentStepHash ≠ ComputeStepHash ro)
    ∧ (∀ steps, ro.Strategy = .Canary steps → ro.CurrentStepHash = "" →
        checkStepHashChange ro = true)
    ∧ checkStepHashChange { ro with CurrentStepHash := ComputeStepHash ro } = false := by
  refine ⟨?_, ?_, ?_⟩
  · simp [checkStepHashChange]
  · intro steps hs he
    simp only [checkStepHashChange, he, bne_iff_ne, ne_eq]
    intro h
    simp only [ComputeStepHash, hs] at h
    exact digestToken_ne_empty _ h.symm
  · simp [checkStepHashChange, ComputeStepHash]

/-- Witness of C25: the three assertions of `TestCheckStepHashChange`. -/
theorem checkStepHashChange_iff_witness :
    checkStepHashChange noStepsRollout = true
    ∧ checkStepHashChange
        { noStepsRollout with CurrentStepHash := ComputeStepHash noStepsRollout } = false
    ∧ checkStepHashChange { noStepsRollout with CurrentStepHash := "different-hash" } = true :=
  ⟨(checkStepHashChange_iff noStepsRollout).2.1 [] rfl rfl,
   (checkStepHashChange_iff noStepsRollout).2.2,
   by decide⟩

end RolloutUtil

namespace Evaluate

/-- C26: for every input whose dynamic type is neither string nor one of the twelve
numeric types, `asInt` and `asFloat` panic with the text `not supported on`,
the name of the type and the text of the value, and return no value. -/
theorem asInt_asFloat_not_supported (rt : GoRuntime) (v : Value)
    (h : v.typeName ∉ ["string", "float64", "float32", "int", "int8", "int16", "int32",
      "int64", "uint", "uint8", "uint16", "uint32", "uint64"]) :
    ∃ text, asInt rt v = .error ("asInt() not supported on " ++ v.typeName ++ " " ++ text)
      ∧ asFloat rt v = .error ("asFloat() not supported on " ++ v.typeName ++ " " ++ text) := by
  cases v with
  | nil => exact ⟨"<nil>", rfl, rfl⟩
  | bool b => exact ⟨toString b, rfl, rfl⟩
  | func f => exact ⟨rt.funcPointer f, rfl, rfl⟩
  | other typeName text => exact ⟨text, rfl, rfl⟩
  | _ => exact absurd h (by simp [Value.typeName])

/-- Witness of C26: nil, a bool, a slice and a map. -/
theorem asInt_asFloat_not_supported_witness :
    (∃ text, asInt testRuntime Value.nil
        = .error ("asInt() not supported on " ++ Value.nil.typeName ++ " " ++ text)
      ∧ asFloat testRuntime Value.nil
        = .error ("asFloat() not supported on " ++ Value.nil.typeName ++ " " ++ text))
    ∧ (∃ text, asInt testRuntime (Value.bool true)
        = .error ("asInt() not supported on " ++ (Value.bool true).typeName ++ " " ++ text)
      ∧ asFloat testRuntime (Value.bool true)
        = .error ("asFloat() not supported on " ++ (Value.bool true).typeName ++ " " ++ text))
    ∧ (∃ text, asInt testRuntime (Value.other "[]float64" "[2 2]")
        = .error ("asInt() not supported on "
            ++ (Value.other "[]float64" "[2 2]").typeName ++ " " ++ text)
      ∧ asFloat testRuntime (Value.other "[]float64" "[2 2]")
        = .error ("asFloat() not supported on "
            ++ (Value.other "[]float64" "[2 2]").typeName ++ " " ++ text))
    ∧ asInt testRuntime (Value.other "map[string]int" "map[foo:1]")
        = .error "asInt() not supported on map[string]int map[foo:1]"
    ∧ asInt testRuntime (Value.bool true) = .error "asInt() not supported on bool true" :=
  ⟨asInt_asFloat_not_supported testRuntime Value.nil (by decide),
   asInt_asFloat_not_supported testRuntime (Value.bool true) (by decide),
   asInt_asFloat_not_supported testRuntime (Value.other "[]float64" "[2 2]") (by decide),
   rfl, rfl⟩

/-- C27: `EvaluateResult` returns the phase Error if and only if it returns an error; with
a nil error the phase is Successful, Failed or Inconclusive, and with an error it
is Error, so no other phase is returned. -/
theorem EvaluateResult_error_iff {V : Type} (L : ExprLib V) (result : V) (metric : Metric) :
    ((EvaluateResult L result metric).1.1 = .Error
        ↔ (EvaluateResult L result metric).1.2 ≠ none)
    ∧ (((EvaluateResult L result metric).1.2 = none
          ∧ ((EvaluateResult L result metric).1.1 = .Successful
            ∨ (EvaluateResult L result metric).1.1 = .Failed
            ∨ (EvaluateResult L result metric).1.1 = .Inconclusive))
        ∨ ((EvaluateResult L result metric).1.2 ≠ none
          ∧ (EvaluateResult L result metric).1.1 = .Error)) := by
  have hd : ∀ s f, decidePhase metric s f = .Successful ∨ decidePhase metric s f = .Failed
      ∨ decidePhase metric s f = .Inconclusive := by
    intro s f
    unfold decidePhase
    by_cases h1 : metric.SuccessCondition = "" <;> by_cases h2 : metric.FailureCondition = ""
      <;> cases s <;> cases f <;> simp [h1, h2]
  unfold EvaluateResult
  simp only
  generalize (if metric.SuccessCondition ≠ "" then
    EvalCondition L result metric.SuccessCondition else ((false, none), [])) = S
  generalize (if metric.FailureCondition ≠ "" then
    EvalCondition L result metric.FailureCondition else ((false, none), [])) = F
  obtain ⟨⟨s, es⟩, logS⟩ := S
  obtain ⟨⟨f, ef⟩, logF⟩ := F
  cases es with
  | some e => simp
  | none =>
    cases ef with
    | some e => simp
    | none =>
      rcases hd s f with h | h | h <;> simp [h]

/-- C28: `asInt` returns the value of every signed integer input and of every unsigned
input below `2^63`; for a `uint64` or `uint` input `n` with `2^63 ≤ n < 2^64` it
returns `n - 2^64`, a negative number, and does not fail. -/
theorem asInt_integers (rt : GoRuntime) (n : Int) :
    asInt rt (.int n) = .ok n ∧ asInt rt (.int8 n) = .ok n ∧ asInt rt (.int16 n) = .ok n
    ∧ asInt rt (.int32 n) = .ok n ∧ asInt rt (.int64 n) = .ok n
    ∧ asInt rt (.uint8 n) = .ok n ∧ asInt rt (.uint16 n) = .ok n ∧ asInt rt (.uint32 n) = .ok n
    ∧ (0 ≤ n → n < 2 ^ 63 → asInt rt (.uint64 n) = .ok n ∧ asInt rt (.uint n) = .ok n)
    ∧ (2 ^ 63 ≤ n → n < 2 ^ 64 →
        asInt rt (.uint64 n) = .ok (n - 2 ^ 64) ∧ asInt rt (.uint n) = .ok (n - 2 ^ 64)
          ∧ n - 2 ^ 64 < 0) := by
  refine ⟨rfl, rfl, rfl, rfl, rfl, rfl, rfl, rfl, ?_, ?_⟩
  · intro h0 h1
    have : toInt64 n = n := by unfold toInt64; omega
    simp [asInt, this]
  · intro h0 h1
    have : toInt64 n = n - 2 ^ 64 := by unfold toInt64; omega
    simp only [asInt, this, true_and]
    omega

/-- Witness of C28: the largest unsigned value that is preserved and the largest `uint64`,
which becomes -1. -/
theorem asInt_integers_witness :
    (asInt testRuntime (.uint64 (2 ^ 63 - 1)) = .ok (2 ^ 63 - 1)
      ∧ asInt testRuntime (.uint (2 ^ 63 - 1)) = .ok (2 ^ 63 - 1))
    ∧ (asInt testRuntime (.uint64 (2 ^ 64 - 1)) = .ok (2 ^ 64 - 1 - 2 ^ 64)
      ∧ asInt testRuntime (.uint (2 ^ 64 - 1)) = .ok (2 ^ 64 - 1 - 2 ^ 64)
      ∧ (2 ^ 64 - 1 - 2 ^ 64 : Int) < 0) :=
  ⟨(asInt_integers testRuntime (2 ^ 63 - 1)).2.2.2.2.2.2.2.2.1 (by decide) (by decide),
   (asInt_integers testRuntime (2 ^ 64 - 1)).2.2.2.2.2.2.2.2.2 (by decide) (by decide)⟩

/-- C29: on the expression model, for a nil result the expression
`result == nil || (result > 0 && foo)`, in which `foo` is not bound in the
environment (the expression `foo` alone is an unknown name), returns `(true, nil)`:
the strict pass fails on the mismatch of nil against `0`, the lax pass skips the
checker and `||` does not evaluate its right operand. -/
theorem EvalCondition_hidden_identifier
    (helpers : Helper → List Value → Except String Value) :
    EvalCondition (exprModel helpers) Value.nil "result == nil || (result > 0 && foo)"
        = ((true, none),
           [⟨"result == nil || (result > 0 && foo)", true⟩,
            ⟨"result == nil || (result > 0 && foo)", false⟩])
    ∧ (mkEnv Value.nil).lookup "foo" = none
    ∧ EvalCondition (exprModel helpers) Value.nil "foo"
        = ((false, some (.plain "unknown name foo")), [⟨"foo", true⟩])
    ∧ eval (exprModel helpers) Value.nil "result == nil || (result > 0 && foo)"
          (mkEnv Value.nil) true
        = (false, some (.plain "invalid operation: > (mismatched types <nil> and int)"))
    ∧ eval (exprModel helpers) Value.nil "result == nil || (result > 0 && foo)"
          (mkEnv Value.nil) false
        = (true, none) :=
  ⟨rfl, rfl, rfl, rfl, rfl⟩

end Evaluate
